import Mathlib

/-!
Verification of the GestureControlPro server core against its design notes.

The Python sources are shallowly embedded:
* `Server/Python/trajectory_predictor.py` → `TrajectoryPredictor`
* `Server/Python/core/executor.py`        → `GestureExecutor` state/step functions
* `Server/Python/core/models.py`          → `Models.GestureCommand.from_json`
* `Server/Python/gesture_server.py`       → `process_message`

Python floats are modelled as rationals (arithmetic in the sources is exact
over the values involved); pixel coordinates are integers; `int(q)` is
truncation toward zero; fallible code returns `Option`.
-/

set_option maxHeartbeats 1000000

set_option maxRecDepth 8192

/-- Python `int(q)` applied to a rational: truncation toward zero
(floor for non-negative values, ceiling for negative ones; phrased through
`Rat.floor` so that it evaluates by kernel reduction). -/
def pyInt (q : ℚ) : ℤ := if 0 ≤ q then q.floor else -(-q).floor

/-- `collections.deque` append with a maximum length `m`: append on the
right, evicting
from the left when the buffer would exceed `maxlen`. -/
def dequeAppend {α : Type} (maxlen : ℕ) (xs : List α) (x : α) : List α :=
  let ys := xs ++ [x]
  if maxlen < ys.length then ys.drop (ys.length - maxlen) else ys

/-- The two newest entries of a buffer kept oldest-first:
`some (buf[-2], buf[-1])` when the buffer has at least two entries. -/
def lastTwo {α : Type} (xs : List α) : Option (α × α) :=
  match xs.reverse with
  | curr :: prev :: _ => some (prev, curr)
  | _ => none

/-- A `(x, y, t)` entry of `position_buffer` (absolute pixels, seconds). -/
structure PosSample where
  x : ℚ
  y : ℚ
  t : ℚ
deriving DecidableEq

/-- A `(vx, vy)` entry of `velocity_buffer`. -/
structure Velocity where
  vx : ℚ
  vy : ℚ
deriving DecidableEq

/-- `trajectory_predictor.py`: predictor state. Buffers are kept
oldest-first, as the deques iterate. -/
structure TrajectoryPredictor where
  sequence_length : ℕ
  position_buffer : List PosSample
  velocity_buffer : List Velocity
  screen_width : ℚ
  screen_height : ℚ
deriving DecidableEq

/-- `TrajectoryPredictor.__init__` with an explicit `sequence_length`. -/
def TrajectoryPredictor.init (w h : ℚ) (seqLen : ℕ) : TrajectoryPredictor :=
  { sequence_length := seqLen, position_buffer := [], velocity_buffer := [],
    screen_width := w, screen_height := h }

/-- `TrajectoryPredictor.__init__` at its default `sequence_length = 5`. -/
def TrajectoryPredictor.initDefault (w h : ℚ) : TrajectoryPredictor :=
  TrajectoryPredictor.init w h 5

/-- `np.arange(1, n+1)` normalized by its sum, as a list of rationals. -/
def weightsOf (n : ℕ) : List ℚ :=
  let raw : List ℚ := (List.range n).map (fun i : ℕ => (i : ℚ) + 1)
  let total := raw.sum
  raw.map (fun w => w / total)

/-- `np.sum([v * w for v, w in zip(vs, ws)])`. -/
def weightedSum (vs ws : List ℚ) : ℚ :=
  ((vs.zip ws).map (fun p => p.1 * p.2)).sum

/-- `TrajectoryPredictor.predict_next_position`: appends the sample, falls
back to the input when fewer than 2 samples or a non-positive time delta,
otherwise appends the instantaneous velocity and extrapolates 20 ms ahead
along the recency-weighted average velocity, clamped to the screen. -/
def TrajectoryPredictor.predict_next_position (p : TrajectoryPredictor)
    (current : ℚ × ℚ) (timestamp : ℚ) : TrajectoryPredictor × (ℚ × ℚ) :=
  let pb := dequeAppend p.sequence_length p.position_buffer
    ⟨current.1, current.2, timestamp⟩
  let p1 := { p with position_buffer := pb }
  if pb.length < 2 then (p1, current) else
  match lastTwo pb with
  | none => (p1, current)
  | some (prev_pos, curr_pos) =>
    let dt := curr_pos.t - prev_pos.t
    if dt ≤ 0 then (p1, current) else
    let velocity_x := (curr_pos.x - prev_pos.x) / dt
    let velocity_y := (curr_pos.y - prev_pos.y) / dt
    let vb := dequeAppend (p.sequence_length - 1) p.velocity_buffer
      ⟨velocity_x, velocity_y⟩
    let p2 := { p1 with velocity_buffer := vb }
    let avg_velocity_x :=
      if 1 ≤ vb.length then weightedSum (vb.map Velocity.vx) (weightsOf vb.length) else 0
    let avg_velocity_y :=
      if 1 ≤ vb.length then weightedSum (vb.map Velocity.vy) (weightsOf vb.length) else 0
    let prediction_time : ℚ := 1 / 50
    let predicted_x := current.1 + avg_velocity_x * prediction_time
    let predicted_y := current.2 + avg_velocity_y * prediction_time
    let cx := max 0 (min p.screen_width predicted_x)
    let cy := max 0 (min p.screen_height predicted_y)
    (p2, (cx, cy))

/-- Recency-weighted mean in closed form: `(Σ (i+1)·vs[i]) / (n(n+1)/2)`,
the spec's "weights 1, 2, …, n (newest heaviest) normalized to sum 1". -/
def weightedMeanSpec (vs : List ℚ) : ℚ :=
  let n := vs.length
  ((((List.range n).zip vs).map (fun p => ((p.1 : ℚ) + 1) * p.2)).sum) /
    ((n : ℚ) * ((n : ℚ) + 1) / 2)

/-- JSON values, the parse result of `json.loads`. Objects keep their
fields as an association list with string keys. -/
inductive Json where
  | null : Json
  | bool (b : Bool) : Json
  | num (q : ℚ) : Json
  | str (s : String) : Json
  | arr (elems : List Json) : Json
  | obj (fields : List (String × Json)) : Json

/-- Python `dict` lookup on a decoded JSON object. -/
def dictGet (fields : List (String × Json)) (k : String) : Option Json :=
  (fields.find? (fun p => p.1 == k)).map Prod.snd

namespace Models

/-- `core/models.py GestureCommand` as constructed by `from_json`: the
decoded fields are carried verbatim (the decoder does not validate their
shapes beyond what it accesses). -/
structure GestureCommand where
  id : Json
  action : Json
  position : Json
  timestamp : Json
  metadata : Json

/-- `GestureCommand.from_json`: reads `data['payload']`, `data['id']` and
`payload['action']` (any `KeyError`/`TypeError` yields `None`), defaulting
`position` to `[0, 0]`, `timestamp` to the current wall-clock `now`, and
`metadata` to `{}`. -/
def GestureCommand.from_json (data : Json) (now : ℚ) : Option GestureCommand :=
  match data with
  | Json.obj fields =>
    match dictGet fields "payload" with
    | none => none
    | some payload =>
      match dictGet fields "id" with
      | none => none
      | some i =>
        match payload with
        | Json.obj pf =>
          match dictGet pf "action" with
          | none => none
          | some a =>
            some { id := i, action := a,
                   position := (dictGet pf "position").getD (Json.arr [Json.num 0, Json.num 0]),
                   timestamp := (dictGet fields "timestamp").getD (Json.num now),
                   metadata := (dictGet pf "metadata").getD (Json.obj []) }
        | _ => none
  | _ => none

end Models

/-- Result of `GestureServer._process_message`: the reply sent on the
WebSocket (when one is attached) and the command handed to
`executor.submit_command` (when validation succeeded). -/
structure ProcessResult where
  reply : Option Json
  submitted : Option Models.GestureCommand

/-- Python `data.get('type') == 'gesture_command'`: true exactly when the
`type` field is present and is the string `"gesture_command"`. -/
def typeIsGestureCommand : Option Json → Bool
  | some (Json.str s) => s == "gesture_command"
  | _ => false

/-- `GestureServer._process_message`. `raw = none` models a payload on
which `json.loads` raises `JSONDecodeError`; `hasReply` tells whether the
transport carries a reply channel (the WebSocket transport) or not
(UDP/TCP, which pass `ws=None`). -/
def process_message (raw : Option Json) (hasReply : Bool) (now : ℚ) : ProcessResult :=
  match raw with
  | none =>
    { reply := if hasReply then some (Json.obj [("error", Json.str "Invalid JSON format")]) else none,
      submitted := none }
  | some data =>
    match data with
    | Json.obj fields =>
      if typeIsGestureCommand (dictGet fields "type") then
        match Models.GestureCommand.from_json data now with
        | some command => { reply := none, submitted := some command }
        | none =>
          { reply := if hasReply then
              some (Json.obj [("error", Json.str "Invalid command format"),
                              ("id", (dictGet fields "id").getD Json.null)])
            else none,
            submitted := none }
      else { reply := none, submitted := none }
    | _ =>
      { reply := if hasReply then some (Json.obj [("error", Json.str "Internal server error")]) else none,
        submitted := none }

/- `core/models.py GestureAction` member values, used by the executor's
string dispatch (`action == GestureAction.X.value`). -/
namespace GestureAction

def CLICK : String := "click"

def DOUBLE_CLICK : String := "double_click"

def DRAG_START : String := "drag_start"

def DRAG_END : String := "drag_end"

def SCROLL : String := "scroll"

def ZOOM : String := "zoom"

def MOVE : String := "move"

def KEY_PRESS : String := "key_press"

def KEY_COMBO : String := "key_combo"

def TYPE_TEXT : String := "type_text"

def MOVE_RELATIVE : String := "move_relative"

def WAVE : String := "wave"

def COPY : String := "copy"

def PASTE : String := "paste"

def TRANSLATE : String := "translate"

def VOLUME_CONTROL : String := "volume_control"

end GestureAction

/-- The metadata keys the executor reads, each optional as in the open
string-keyed Python dict (`metadata.get(key, default)`). -/
structure Metadata where
  button : Option String
  direction : Option String
  amount : Option ℚ
  factor : Option ℚ
  dx : Option ℚ
  dy : Option ℚ
  key : Option String
  keys : Option (List String)
  text : Option String
deriving DecidableEq

/-- A metadata dict carrying none of the recognized keys. -/
def Metadata.empty : Metadata :=
  { button := none, direction := none, amount := none, factor := none,
    dx := none, dy := none, key := none, keys := none, text := none }

/-- A well-formed command as seen by the executor (`position` carries at
least the two coordinates the executor indexes). -/
structure GestureCommand where
  id : String
  action : String
  position : ℚ × ℚ
  timestamp : ℚ
  metadata : Metadata
deriving DecidableEq

/-- The `ServerConfig` fields the executor reads. -/
structure ServerConfig where
  enable_prediction : Bool
  gesture_smoothing : ℚ
  performance_logging : Bool
deriving DecidableEq

/-- One call on the input-injection surface (`SystemController`). -/
inductive Event where
  | click (x y : ℤ) (button : String) : Event
  | double_click (x y : ℤ) (button : String) : Event
  | mouse_down (x y : ℤ) (button : String) : Event
  | mouse_up (x y : ℤ) (button : String) : Event
  | scroll (amount : ℚ) (x y : ℤ) : Event
  | hscroll (amount : ℚ) (x y : ℤ) : Event
  | move_to (x y : ℤ) : Event
  | move_relative (dx dy : ℤ) : Event
  | key_down (k : String) : Event
  | key_up (k : String) : Event
  | press (k : String) : Event
  | hotkey (ks : List String) : Event
  | type_string (s : String) : Event
  | copy_selection_to_clipboard : Event
  | copy_to_clipboard (s : String) : Event
  | paste_from_clipboard : Event
  | read_clipboard : Event
  | translate_call (s : String) : Event
  | volume_up : Event
  | volume_down : Event
deriving DecidableEq

/-- The executor's mutable fields (`core/executor.py GestureExecutor`),
plus the host clipboard the clipboard actions go through. -/
structure ExecState where
  last_position : ℤ × ℤ
  is_dragging : Bool
  predictor : TrajectoryPredictor
  clipboard : String
deriving DecidableEq

/-- `GestureExecutor.__init__`: `last_position = [0, 0]`,
`is_dragging = False`, a fresh predictor at the default sequence length. -/
def ExecState.init (w h : ℚ) (clipboard : String) : ExecState :=
  { last_position := (0, 0), is_dragging := false,
    predictor := TrajectoryPredictor.initDefault w h, clipboard := clipboard }

/-- The executor's read-only surroundings: configuration, screen size, and
the external collaborators (host selection, translation service). -/
structure Env where
  config : ServerConfig
  screen_width : ℤ
  screen_height : ℤ
  selection : String
  translation : String → String

/-- `GestureExecutor._smooth_position` without its state write:
`α = 1 − s`, `int(α·x + (1−α)·last)` componentwise. -/
def smooth_position (s : ℚ) (last : ℤ × ℤ) (x y : ℤ) : ℤ × ℤ :=
  let alpha := 1 - s
  let sx := pyInt (alpha * (x : ℚ) + (1 - alpha) * (last.1 : ℚ))
  let sy := pyInt (alpha * (y : ℚ) + (1 - alpha) * (last.2 : ℚ))
  (sx, sy)

/-- `GestureExecutor._predict_next_position`: feed the un-clamped
denormalized position to the predictor, then clamp the prediction to the
screen (`predicted_pos` is a 2-tuple, hence always truthy, so the
fallback line is unreachable). -/
def executor_predict (env : Env) (st : ExecState) (cmd : GestureCommand) :
    TrajectoryPredictor × ℤ × ℤ :=
  let r := st.predictor.predict_next_position
    (cmd.position.1 * (env.screen_width : ℚ), cmd.position.2 * (env.screen_height : ℚ))
    cmd.timestamp
  let px := max 0 (min env.screen_width (pyInt r.2.1))
  let py := max 0 (min env.screen_height (pyInt r.2.2))
  (r.1, px, py)

/-- `GestureExecutor._execute_action`: string dispatch over the action,
applying prediction (move only) and smoothing, returning the new executor
state and the injection calls issued, in order. -/
def execute_action (env : Env) (st : ExecState) (cmd : GestureCommand) (x y : ℤ) :
    ExecState × List Event :=
  let action := cmd.action
  let metadata := cmd.metadata
  if action = GestureAction.MOVE_RELATIVE then
    let dx := pyInt (metadata.dx.getD 0)
    let dy := pyInt (metadata.dy.getD 0)
    (st, [Event.move_relative dx dy])
  else if action = GestureAction.MOVE then
    let pr := if env.config.enable_prediction then executor_predict env st cmd
              else (st.predictor, x, y)
    let st1 := { st with predictor := pr.1 }
    let sm := if 0 < env.config.gesture_smoothing then
                smooth_position env.config.gesture_smoothing st1.last_position pr.2.1 pr.2.2
              else (pr.2.1, pr.2.2)
    let st2 := if 0 < env.config.gesture_smoothing then { st1 with last_position := sm } else st1
    (st2, [Event.move_to sm.1 sm.2])
  else
    let sm := if 0 < env.config.gesture_smoothing then
                smooth_position env.config.gesture_smoothing st.last_position x y
              else (x, y)
    let st1 := if 0 < env.config.gesture_smoothing then { st with last_position := sm } else st
    let sx := sm.1
    let sy := sm.2
    if action = GestureAction.CLICK then
      (st1, [Event.click sx sy (metadata.button.getD "left")])
    else if action = GestureAction.DOUBLE_CLICK then
      (st1, [Event.double_click sx sy (metadata.button.getD "left")])
    else if action = GestureAction.DRAG_START then
      if st1.is_dragging then (st1, [])
      else ({ st1 with is_dragging := true }, [Event.mouse_down sx sy (metadata.button.getD "left")])
    else if action = GestureAction.DRAG_END then
      if st1.is_dragging then
        ({ st1 with is_dragging := false }, [Event.mouse_up sx sy (metadata.button.getD "left")])
      else (st1, [])
    else if action = GestureAction.SCROLL then
      let direction := metadata.direction.getD "up"
      let amount := metadata.amount.getD 3
      if direction = "up" ∨ direction = "down" then
        (st1, [Event.scroll (if direction = "up" then amount else -amount) sx sy])
      else
        (st1, [Event.hscroll (if direction = "right" then amount else -amount) sx sy])
    else if action = GestureAction.ZOOM then
      let factor := metadata.factor.getD 1
      let scroll_amt := pyInt ((factor - 1) * 5)
      (st1, [Event.key_down "ctrl", Event.scroll (scroll_amt : ℚ) sx sy, Event.key_up "ctrl"])
    else if action = GestureAction.KEY_PRESS then
      (st1, [Event.press (metadata.key.getD "space")])
    else if action = GestureAction.KEY_COMBO then
      (st1, [Event.hotkey (metadata.keys.getD [])])
    else if action = GestureAction.TYPE_TEXT then
      (st1, [Event.type_string (metadata.text.getD "")])
    else if action = GestureAction.WAVE then
      (st1, [Event.hotkey ["alt", "tab"]])
    else if action = GestureAction.COPY then
      ({ st1 with clipboard := env.selection }, [Event.copy_selection_to_clipboard])
    else if action = GestureAction.PASTE then
      let text_to_paste := metadata.text.getD ""
      if text_to_paste ≠ "" then
        ({ st1 with clipboard := text_to_paste },
         [Event.copy_to_clipboard text_to_paste, Event.paste_from_clipboard])
      else (st1, [])
    else if action = GestureAction.TRANSLATE then
      let st2 := { st1 with clipboard := env.selection }
      let text_to_translate := st2.clipboard
      if text_to_translate ≠ "" then
        let translated_text := env.translation text_to_translate
        ({ st2 with clipboard := translated_text },
         [Event.copy_selection_to_clipboard, Event.read_clipboard,
          Event.translate_call text_to_translate,
          Event.copy_to_clipboard translated_text, Event.paste_from_clipboard])
      else (st2, [Event.copy_selection_to_clipboard, Event.read_clipboard])
    else if action = GestureAction.VOLUME_CONTROL then
      if metadata.direction.getD "up" = "up" then (st1, [Event.volume_up])
      else (st1, [Event.volume_down])
    else (st1, [])

/-- `GestureExecutor._execute_command_internal`: denormalize with `int()`
truncation, clamp into `[0, screen]` on each axis, then dispatch. -/
def execute_command_internal (env : Env) (st : ExecState) (cmd : GestureCommand) :
    ExecState × List Event :=
  let abs_x := pyInt (cmd.position.1 * (env.screen_width : ℚ))
  let abs_y := pyInt (cmd.position.2 * (env.screen_height : ℚ))
  let cx := max 0 (min env.screen_width abs_x)
  let cy := max 0 (min env.screen_height abs_y)
  execute_action env st cmd cx cy

/-- `GestureExecutor._command_worker` draining a queue prefix: commands are
dequeued in FIFO order and each is executed to completion (its awaited
dispatch finishes) before the next is dequeued. -/
def command_worker (env : Env) : ExecState → List GestureCommand → ExecState × List Event
  | st, [] => (st, [])
  | st, c :: cs =>
    let r := execute_command_internal env st c
    let rest := command_worker env r.1 cs
    (rest.1, r.2 ++ rest.2)

/-- The injection-call trace the worker produces on a command list. -/
def workerTrace (env : Env) (st : ExecState) (cmds : List GestureCommand) : List Event :=
  (command_worker env st cmds).2

/-- The worker's dispatch log with each injection call tagged by the queue
index of the command that issued it. -/
def taggedTrace (env : Env) : ExecState → List GestureCommand → List (ℕ × Event)
  | _, [] => []
  | st, c :: cs =>
    let r := execute_command_internal env st c
    r.2.map (fun e => (0, e)) ++ (taggedTrace env r.1 cs).map (fun p => (p.1 + 1, p.2))

/-- `asyncio.Queue(maxsize=100)` capacity. -/
def queueCapacity : ℕ := 100

/-- The command queue contents, oldest first. -/
structure CommandQueue where
  items : List GestureCommand
deriving DecidableEq

/-- Result of `GestureExecutor.submit_command`: the queue afterwards and
whether the `QueueFull` warning was logged (the command was dropped). -/
structure SubmitResult where
  queue : CommandQueue
  warned : Bool
deriving DecidableEq

/-- `GestureExecutor.submit_command`: non-blocking `put_nowait`; on a full
queue the incoming command is dropped and a warning logged. -/
def submit_command (q : CommandQueue) (cmd : GestureCommand) : SubmitResult :=
  if queueCapacity ≤ q.items.length then
    { queue := q, warned := true }
  else
    { queue := { items := q.items ++ [cmd] }, warned := false }

/-- Bounds check on the absolute coordinates an injection call carries.
Calls without an absolute target (relative moves, keys, clipboard, volume)
carry none. -/
def xyOK (w h x y : ℤ) : Bool :=
  decide (0 ≤ x) && decide (x ≤ w) && decide (0 ≤ y) && decide (y ≤ h)

/-- Events carrying an absolute target have it inside
`[0, w] × [0, h]`. -/
def coordsInBounds (w h : ℤ) : Event → Bool
  | Event.click x y _ => xyOK w h x y
  | Event.double_click x y _ => xyOK w h x y
  | Event.mouse_down x y _ => xyOK w h x y
  | Event.mouse_up x y _ => xyOK w h x y
  | Event.move_to x y => xyOK w h x y
  | Event.scroll _ x y => xyOK w h x y
  | Event.hscroll _ x y => xyOK w h x y
  | _ => true

/-- The denormalization the code performs: multiply by the screen size,
truncate toward zero (`int()`), clamp into `[0, w]`. -/
def denormCode (p : ℚ) (w : ℤ) : ℤ := max 0 (min w (pyInt (p * (w : ℚ))))

/-- The denormalization as the spec words it: multiply by the screen size,
round to nearest, clamp into `[0, w]` (reference definition built from the
spec text, for comparison with `denormCode`). -/
def denormRoundSpec (p : ℚ) (w : ℤ) : ℤ := max 0 (min w (round (p * (w : ℚ))))

/-! ### Support lemmas -/

lemma ratFloor_eq (q : ℚ) : q.floor = ⌊q⌋ := by
  rw [Rat.floor_def, Rat.floor_def']

lemma pyInt_def (q : ℚ) : pyInt q = if 0 ≤ q then ⌊q⌋ else ⌈q⌉ := by
  unfold pyInt
  by_cases h : 0 ≤ q
  · simp [h, ratFloor_eq]
  · simp [h, ratFloor_eq, Int.floor_neg]

lemma pyInt_nonneg {q : ℚ} (h : 0 ≤ q) : 0 ≤ pyInt q := by
  rw [pyInt_def, if_pos h]
  exact Int.floor_nonneg.mpr h

lemma pyInt_le {q : ℚ} {m : ℤ} (hq : q ≤ (m : ℚ)) : pyInt q ≤ m := by
  rw [pyInt_def]
  split_ifs with h
  · calc ⌊q⌋ ≤ ⌊(m : ℚ)⌋ := Int.floor_le_floor hq
      _ = m := Int.floor_intCast m
  · calc ⌈q⌉ ≤ ⌈(m : ℚ)⌉ := Int.ceil_le_ceil hq
      _ = m := Int.ceil_intCast m

lemma clamp_nonneg (w v : ℤ) : 0 ≤ max 0 (min w v) := le_max_left 0 _

lemma clamp_le {w : ℤ} (v : ℤ) (hw : 0 ≤ w) : max 0 (min w v) ≤ w :=
  max_le hw (min_le_left w v)

lemma smooth_position_bounds {s : ℚ} {last : ℤ × ℤ} {x y w h : ℤ}
    (hs0 : 0 ≤ s) (hs1 : s < 1)
    (hx0 : 0 ≤ x) (hxw : x ≤ w) (hy0 : 0 ≤ y) (hyh : y ≤ h)
    (hl0 : 0 ≤ last.1) (hlw : last.1 ≤ w) (hl0y : 0 ≤ last.2) (hlh : last.2 ≤ h) :
    0 ≤ (smooth_position s last x y).1 ∧ (smooth_position s last x y).1 ≤ w ∧
    0 ≤ (smooth_position s last x y).2 ∧ (smooth_position s last x y).2 ≤ h := by
  have blend : ∀ a b c : ℤ, 0 ≤ a → a ≤ c → 0 ≤ b → b ≤ c →
      0 ≤ pyInt ((1 - s) * (a : ℚ) + (1 - (1 - s)) * (b : ℚ)) ∧
      pyInt ((1 - s) * (a : ℚ) + (1 - (1 - s)) * (b : ℚ)) ≤ c := by
    intro a b c ha hac hb hbc
    have ha' : (0 : ℚ) ≤ (a : ℚ) := by exact_mod_cast ha
    have hac' : (a : ℚ) ≤ (c : ℚ) := by exact_mod_cast hac
    have hb' : (0 : ℚ) ≤ (b : ℚ) := by exact_mod_cast hb
    have hbc' : (b : ℚ) ≤ (c : ℚ) := by exact_mod_cast hbc
    have halpha : (0 : ℚ) < 1 - s := by linarith
    have hq0 : (0 : ℚ) ≤ (1 - s) * (a : ℚ) + (1 - (1 - s)) * (b : ℚ) := by nlinarith
    have hqc : (1 - s) * (a : ℚ) + (1 - (1 - s)) * (b : ℚ) ≤ (c : ℚ) := by nlinarith
    exact ⟨pyInt_nonneg hq0, pyInt_le hqc⟩
  unfold smooth_position
  have h1 := blend x last.1 w hx0 hxw hl0 hlw
  have h2 := blend y last.2 h hy0 hyh hl0y hlh
  exact ⟨h1.1, h1.2, h2.1, h2.2⟩

lemma dequeAppend_length {α : Type} (m : ℕ) (xs : List α) (x : α) :
    (dequeAppend m xs x).length = min (xs.length + 1) m := by
  simp only [dequeAppend]
  split_ifs with h
  · simp only [List.length_append, List.length_singleton] at h
    simp only [List.length_drop, List.length_append, List.length_singleton]
    omega
  · simp only [List.length_append, List.length_singleton] at h
    simp only [List.length_append, List.length_singleton]
    omega

lemma dequeAppend_full {α : Type} {m : ℕ} {xs : List α} (x : α)
    (h : xs.length = m) (hm : 0 < m) :
    dequeAppend m xs x = xs.tail ++ [x] := by
  simp only [dequeAppend]
  rw [if_pos (by simp only [List.length_append, List.length_singleton]; omega)]
  simp only [List.length_append, List.length_singleton, h]
  have h1 : m + 1 - m = 1 := by omega
  rw [h1, List.drop_append_of_le_length (by omega), List.drop_one]

/-! ### Branch views of the action dispatch

`execute_action` is one large conditional; the following abbreviations
name its recurring sub-terms and the equation lemmas expose each action's
branch, so later proofs can reason on small right-hand sides. -/

/-- The position the non-predictive path dispatches: smoothed when the
smoothing factor is positive, passed through unchanged otherwise. -/
def smoothXY (env : Env) (st : ExecState) (x y : ℤ) : ℤ × ℤ :=
  if 0 < env.config.gesture_smoothing then
    smooth_position env.config.gesture_smoothing st.last_position x y
  else (x, y)

/-- The executor state after the smoothing step: `last_position` tracks
the smoothed value exactly when the smoothing factor is positive. -/
def smoothSt (env : Env) (st : ExecState) (x y : ℤ) : ExecState :=
  if 0 < env.config.gesture_smoothing then { st with last_position := smoothXY env st x y }
  else st

/-- The predictor outcome the `move` branch uses: the (clamped) prediction
when prediction is enabled, the already-clamped input otherwise. -/
def moveXY (env : Env) (st : ExecState) (cmd : GestureCommand) (x y : ℤ) :
    TrajectoryPredictor × ℤ × ℤ :=
  if env.config.enable_prediction then executor_predict env st cmd else (st.predictor, x, y)

lemma smoothSt_is_dragging (env : Env) (st : ExecState) (x y : ℤ) :
    (smoothSt env st x y).is_dragging = st.is_dragging := by
  unfold smoothSt
  split_ifs <;> rfl

lemma smoothSt_of_nosmooth (env : Env) (st : ExecState) (x y : ℤ)
    (hns : ¬ (0 : ℚ) < env.config.gesture_smoothing) : smoothSt env st x y = st := by
  unfold smoothSt
  rw [if_neg hns]

lemma smoothXY_of_nosmooth {env : Env} (st : ExecState) (x y : ℤ)
    (hns : ¬ (0 : ℚ) < env.config.gesture_smoothing) : smoothXY env st x y = (x, y) := by
  unfold smoothXY
  rw [if_neg hns]

lemma smoothSt_last_position (env : Env) (st : ExecState) (x y : ℤ) :
    (smoothSt env st x y).last_position =
      if 0 < env.config.gesture_smoothing then smoothXY env st x y else st.last_position := by
  unfold smoothSt
  split_ifs <;> rfl

lemma executeAction_move_relative (env : Env) (st : ExecState) (cmd : GestureCommand)
    (x y : ℤ) (h : cmd.action = GestureAction.MOVE_RELATIVE) :
    execute_action env st cmd x y =
      (st, [Event.move_relative (pyInt (cmd.metadata.dx.getD 0)) (pyInt (cmd.metadata.dy.getD 0))]) := by
  unfold execute_action
  rw [h, if_pos rfl]

lemma executeAction_move (env : Env) (st : ExecState) (cmd : GestureCommand)
    (x y : ℤ) (h : cmd.action = GestureAction.MOVE) :
    execute_action env st cmd x y =
      (if 0 < env.config.gesture_smoothing then
         { st with predictor := (moveXY env st cmd x y).1,
                   last_position := smoothXY env st (moveXY env st cmd x y).2.1 (moveXY env st cmd x y).2.2 }
       else { st with predictor := (moveXY env st cmd x y).1 },
       [Event.move_to (smoothXY env st (moveXY env st cmd x y).2.1 (moveXY env st cmd x y).2.2).1
                      (smoothXY env st (moveXY env st cmd x y).2.1 (moveXY env st cmd x y).2.2).2]) := by
  unfold execute_action moveXY smoothXY
  rw [h, if_neg (by decide), if_pos rfl]

lemma executeAction_click (env : Env) (st : ExecState) (cmd : GestureCommand)
    (x y : ℤ) (h : cmd.action = GestureAction.CLICK) :
    execute_action env st cmd x y =
      (smoothSt env st x y,
       [Event.click (smoothXY env st x y).1 (smoothXY env st x y).2 (cmd.metadata.button.getD "left")]) := by
  unfold execute_action smoothSt smoothXY
  rw [h, if_neg (by decide), if_neg (by decide), if_pos rfl]

lemma executeAction_double_click (env : Env) (st : ExecState) (cmd : GestureCommand)
    (x y : ℤ) (h : cmd.action = GestureAction.DOUBLE_CLICK) :
    execute_action env st cmd x y =
      (smoothSt env st x y,
       [Event.double_click (smoothXY env st x y).1 (smoothXY env st x y).2 (cmd.metadata.button.getD "left")]) := by
  unfold execute_action smoothSt smoothXY
  rw [h, if_neg (by decide), if_neg (by decide), if_neg (by decide), if_pos rfl]

lemma executeAction_drag_start (env : Env) (st : ExecState) (cmd : GestureCommand)
    (x y : ℤ) (h : cmd.action = GestureAction.DRAG_START) :
    execute_action env st cmd x y =
      (if (smoothSt env st x y).is_dragging = true then (smoothSt env st x y, [])
       else ({ smoothSt env st x y with is_dragging := true },
             [Event.mouse_down (smoothXY env st x y).1 (smoothXY env st x y).2
                               (cmd.metadata.button.getD "left")])) := by
  unfold execute_action smoothSt smoothXY
  rw [h, if_neg (by decide), if_neg (by decide), if_neg (by decide), if_neg (by decide), if_pos rfl]

lemma executeAction_drag_end (env : Env) (st : ExecState) (cmd : GestureCommand)
    (x y : ℤ) (h : cmd.action = GestureAction.DRAG_END) :
    execute_action env st cmd x y =
      (if (smoothSt env st x y).is_dragging = true then
         ({ smoothSt env st x y with is_dragging := false },
          [Event.mouse_up (smoothXY env st x y).1 (smoothXY env st x y).2
                          (cmd.metadata.button.getD "left")])
       else (smoothSt env st x y, [])) := by
  unfold execute_action smoothSt smoothXY
  rw [h, if_neg (by decide), if_neg (by decide), if_neg (by decide), if_neg (by decide),
      if_neg (by decide), if_pos rfl]

lemma executeAction_scroll (env : Env) (st : ExecState) (cmd : GestureCommand)
    (x y : ℤ) (h : cmd.action = GestureAction.SCROLL) :
    execute_action env st cmd x y =
      (if cmd.metadata.direction.getD "up" = "up" ∨ cmd.metadata.direction.getD "up" = "down" then
         (smoothSt env st x y,
          [Event.scroll (if cmd.metadata.direction.getD "up" = "up" then cmd.metadata.amount.getD 3
                         else -(cmd.metadata.amount.getD 3))
                        (smoothXY env st x y).1 (smoothXY env st x y).2])
       else
         (smoothSt env st x y,
          [Event.hscroll (if cmd.metadata.direction.getD "up" = "right" then cmd.metadata.amount.getD 3
                          else -(cmd.metadata.amount.getD 3))
                         (smoothXY env st x y).1 (smoothXY env st x y).2])) := by
  unfold execute_action smoothSt smoothXY
  rw [h, if_neg (by decide), if_neg (by decide), if_neg (by decide), if_neg (by decide),
      if_neg (by decide), if_neg (by decide), if_pos rfl]

lemma executeAction_zoom (env : Env) (st : ExecState) (cmd : GestureCommand)
    (x y : ℤ) (h : cmd.action = GestureAction.ZOOM) :
    execute_action env st cmd x y =
      (smoothSt env st x y,
       [Event.key_down "ctrl",
        Event.scroll ((pyInt ((cmd.metadata.factor.getD 1 - 1) * 5) : ℤ) : ℚ)
                     (smoothXY env st x y).1 (smoothXY env st x y).2,
        Event.key_up "ctrl"]) := by
  unfold execute_action smoothSt smoothXY
  rw [h, if_neg (by decide), if_neg (by decide), if_neg (by decide), if_neg (by decide),
      if_neg (by decide), if_neg (by decide), if_neg (by decide), if_pos rfl]

lemma executeAction_key_press (env : Env) (st : ExecState) (cmd : GestureCommand)
    (x y : ℤ) (h : cmd.action = GestureAction.KEY_PRESS) :
    execute_action env st cmd x y =
      (smoothSt env st x y, [Event.press (cmd.metadata.key.getD "space")]) := by
  unfold execute_action smoothSt smoothXY
  rw [h, if_neg (by decide), if_neg (by decide), if_neg (by decide), if_neg (by decide),
      if_neg (by decide), if_neg (by decide), if_neg (by decide), if_neg (by decide), if_pos rfl]

lemma executeAction_key_combo (env : Env) (st : ExecState) (cmd : GestureCommand)
    (x y : ℤ) (h : cmd.action = GestureAction.KEY_COMBO) :
    execute_action env st cmd x y =
      (smoothSt env st x y, [Event.hotkey (cmd.metadata.keys.getD [])]) := by
  unfold execute_action smoothSt smoothXY
  rw [h, if_neg (by decide), if_neg (by decide), if_neg (by decide), if_neg (by decide),
      if_neg (by decide), if_neg (by decide), if_neg (by decide), if_neg (by decide),
      if_neg (by decide), if_pos rfl]

lemma executeAction_type_text (env : Env) (st : ExecState) (cmd : GestureCommand)
    (x y : ℤ) (h : cmd.action = GestureAction.TYPE_TEXT) :
    execute_action env st cmd x y =
      (smoothSt env st x y, [Event.type_string (cmd.metadata.text.getD "")]) := by
  unfold execute_action smoothSt smoothXY
  rw [h, if_neg (by decide), if_neg (by decide), if_neg (by decide), if_neg (by decide),
      if_neg (by decide), if_neg (by decide), if_neg (by decide), if_neg (by decide),
      if_neg (by decide), if_neg (by decide), if_pos rfl]

lemma executeAction_wave (env : Env) (st : ExecState) (cmd : GestureCommand)
    (x y : ℤ) (h : cmd.action = GestureAction.WAVE) :
    execute_action env st cmd x y =
      (smoothSt env st x y, [Event.hotkey ["alt", "tab"]]) := by
  unfold execute_action smoothSt smoothXY
  rw [h, if_neg (by decide), if_neg (by decide), if_neg (by decide), if_neg (by decide),
      if_neg (by decide), if_neg (by decide), if_neg (by decide), if_neg (by decide),
      if_neg (by decide), if_neg (by decide), if_neg (by decide), if_pos rfl]

lemma executeAction_copy (env : Env) (st : ExecState) (cmd : GestureCommand)
    (x y : ℤ) (h : cmd.action = GestureAction.COPY) :
    execute_action env st cmd x y =
      ({ smoothSt env st x y with clipboard := env.selection },
       [Event.copy_selection_to_clipboard]) := by
  unfold execute_action smoothSt smoothXY
  rw [h, if_neg (by decide), if_neg (by decide), if_neg (by decide), if_neg (by decide),
      if_neg (by decide), if_neg (by decide), if_neg (by decide), if_neg (by decide),
      if_neg (by decide), if_neg (by decide), if_neg (by decide), if_neg (by decide), if_pos rfl]

lemma executeAction_paste (env : Env) (st : ExecState) (cmd : GestureCommand)
    (x y : ℤ) (h : cmd.action = GestureAction.PASTE) :
    execute_action env st cmd x y =
      (if cmd.metadata.text.getD "" ≠ "" then
         ({ smoothSt env st x y with clipboard := cmd.metadata.text.getD "" },
          [Event.copy_to_clipboard (cmd.metadata.text.getD ""), Event.paste_from_clipboard])
       else (smoothSt env st x y, [])) := by
  unfold execute_action smoothSt smoothXY
  rw [h, if_neg (by decide), if_neg (by decide), if_neg (by decide), if_neg (by decide),
      if_neg (by decide), if_neg (by decide), if_neg (by decide), if_neg (by decide),
      if_neg (by decide), if_neg (by decide), if_neg (by decide), if_neg (by decide),
      if_neg (by decide), if_pos rfl]

lemma executeAction_translate (env : Env) (st : ExecState) (cmd : GestureCommand)
    (x y : ℤ) (h : cmd.action = GestureAction.TRANSLATE) :
    execute_action env st cmd x y =
      (if env.selection ≠ "" then
         ({ smoothSt env st x y with clipboard := env.translation env.selection },
          [Event.copy_selection_to_clipboard, Event.read_clipboard,
           Event.translate_call env.selection,
           Event.copy_to_clipboard (env.translation env.selection), Event.paste_from_clipboard])
       else ({ smoothSt env st x y with clipboard := env.selection },
             [Event.copy_selection_to_clipboard, Event.read_clipboard])) := by
  unfold execute_action smoothSt smoothXY
  rw [h, if_neg (by decide), if_neg (by decide), if_neg (by decide), if_neg (by decide),
      if_neg (by decide), if_neg (by decide), if_neg (by decide), if_neg (by decide),
      if_neg (by decide), if_neg (by decide), if_neg (by decide), if_neg (by decide),
      if_neg (by decide), if_neg (by decide), if_pos rfl]

lemma executeAction_volume_control (env : Env) (st : ExecState) (cmd : GestureCommand)
    (x y : ℤ) (h : cmd.action = GestureAction.VOLUME_CONTROL) :
    execute_action env st cmd x y =
      (if cmd.metadata.direction.getD "up" = "up" then (smoothSt env st x y, [Event.volume_up])
       else (smoothSt env st x y, [Event.volume_down])) := by
  unfold execute_action smoothSt smoothXY
  rw [h, if_neg (by decide), if_neg (by decide), if_neg (by decide), if_neg (by decide),
      if_neg (by decide), if_neg (by decide), if_neg (by decide), if_neg (by decide),
      if_neg (by decide), if_neg (by decide), if_neg (by decide), if_neg (by decide),
      if_neg (by decide), if_neg (by decide), if_neg (by decide), if_pos rfl]

/-- The emitted `last_position` stays within `[0, w] × [0, h]`. -/
def lastOK (w h : ℤ) (st : ExecState) : Prop :=
  0 ≤ st.last_position.1 ∧ st.last_position.1 ≤ w ∧
  0 ≤ st.last_position.2 ∧ st.last_position.2 ≤ h

lemma smoothXY_bounds {env : Env} {st : ExecState} {x y : ℤ}
    (hs0 : 0 ≤ env.config.gesture_smoothing) (hs1 : env.config.gesture_smoothing < 1)
    (hx0 : 0 ≤ x) (hxw : x ≤ env.screen_width) (hy0 : 0 ≤ y) (hyh : y ≤ env.screen_height)
    (hlast : lastOK env.screen_width env.screen_height st) :
    0 ≤ (smoothXY env st x y).1 ∧ (smoothXY env st x y).1 ≤ env.screen_width ∧
    0 ≤ (smoothXY env st x y).2 ∧ (smoothXY env st x y).2 ≤ env.screen_height := by
  obtain ⟨l1, l2, l3, l4⟩ := hlast
  unfold smoothXY
  split_ifs with hpos
  · exact smooth_position_bounds hs0 hs1 hx0 hxw hy0 hyh l1 l2 l3 l4
  · exact ⟨hx0, hxw, hy0, hyh⟩

lemma smoothSt_lastOK {env : Env} {st : ExecState} {x y : ℤ}
    (hs0 : 0 ≤ env.config.gesture_smoothing) (hs1 : env.config.gesture_smoothing < 1)
    (hx0 : 0 ≤ x) (hxw : x ≤ env.screen_width) (hy0 : 0 ≤ y) (hyh : y ≤ env.screen_height)
    (hlast : lastOK env.screen_width env.screen_height st) :
    lastOK env.screen_width env.screen_height (smoothSt env st x y) := by
  unfold smoothSt
  split_ifs with hpos
  · exact smoothXY_bounds hs0 hs1 hx0 hxw hy0 hyh hlast
  · exact hlast

lemma moveXY_bounds {env : Env} (st : ExecState) (cmd : GestureCommand) {x y : ℤ}
    (hw : 0 ≤ env.screen_width) (hh : 0 ≤ env.screen_height)
    (hx0 : 0 ≤ x) (hxw : x ≤ env.screen_width) (hy0 : 0 ≤ y) (hyh : y ≤ env.screen_height) :
    0 ≤ (moveXY env st cmd x y).2.1 ∧ (moveXY env st cmd x y).2.1 ≤ env.screen_width ∧
    0 ≤ (moveXY env st cmd x y).2.2 ∧ (moveXY env st cmd x y).2.2 ≤ env.screen_height := by
  unfold moveXY
  split_ifs with hpred
  · unfold executor_predict
    exact ⟨clamp_nonneg _ _, clamp_le _ hw, clamp_nonneg _ _, clamp_le _ hh⟩
  · exact ⟨hx0, hxw, hy0, hyh⟩

lemma executeAction_unknown (env : Env) (st : ExecState) (cmd : GestureCommand) (x y : ℤ)
    (n1 : cmd.action ≠ GestureAction.MOVE_RELATIVE) (n2 : cmd.action ≠ GestureAction.MOVE)
    (n3 : cmd.action ≠ GestureAction.CLICK) (n4 : cmd.action ≠ GestureAction.DOUBLE_CLICK)
    (n5 : cmd.action ≠ GestureAction.DRAG_START) (n6 : cmd.action ≠ GestureAction.DRAG_END)
    (n7 : cmd.action ≠ GestureAction.SCROLL) (n8 : cmd.action ≠ GestureAction.ZOOM)
    (n9 : cmd.action ≠ GestureAction.KEY_PRESS) (n10 : cmd.action ≠ GestureAction.KEY_COMBO)
    (n11 : cmd.action ≠ GestureAction.TYPE_TEXT) (n12 : cmd.action ≠ GestureAction.WAVE)
    (n13 : cmd.action ≠ GestureAction.COPY) (n14 : cmd.action ≠ GestureAction.PASTE)
    (n15 : cmd.action ≠ GestureAction.TRANSLATE) (n16 : cmd.action ≠ GestureAction.VOLUME_CONTROL) :
    execute_action env st cmd x y = (smoothSt env st x y, []) := by
  unfold execute_action smoothSt smoothXY
  rw [if_neg n1, if_neg n2, if_neg n3, if_neg n4, if_neg n5, if_neg n6, if_neg n7, if_neg n8,
      if_neg n9, if_neg n10, if_neg n11, if_neg n12, if_neg n13, if_neg n14, if_neg n15, if_neg n16]

lemma executeAction_last_position (env : Env) (st : ExecState) (cmd : GestureCommand) (x y : ℤ)
    (hns : ¬ (0 : ℚ) < env.config.gesture_smoothing) :
    (execute_action env st cmd x y).1.last_position = st.last_position := by
  have hsm := smoothSt_of_nosmooth env st x y hns
  by_cases h1 : cmd.action = GestureAction.MOVE_RELATIVE
  · rw [executeAction_move_relative env st cmd x y h1]
  by_cases h2 : cmd.action = GestureAction.MOVE
  · rw [executeAction_move env st cmd x y h2, if_neg hns]
  by_cases h3 : cmd.action = GestureAction.CLICK
  · rw [executeAction_click env st cmd x y h3, hsm]
  by_cases h4 : cmd.action = GestureAction.DOUBLE_CLICK
  · rw [executeAction_double_click env st cmd x y h4, hsm]
  by_cases h5 : cmd.action = GestureAction.DRAG_START
  · rw [executeAction_drag_start env st cmd x y h5, hsm]
    split_ifs <;> rfl
  by_cases h6 : cmd.action = GestureAction.DRAG_END
  · rw [executeAction_drag_end env st cmd x y h6, hsm]
    split_ifs <;> rfl
  by_cases h7 : cmd.action = GestureAction.SCROLL
  · rw [executeAction_scroll env st cmd x y h7, hsm]
    split_ifs <;> rfl
  by_cases h8 : cmd.action = GestureAction.ZOOM
  · rw [executeAction_zoom env st cmd x y h8, hsm]
  by_cases h9 : cmd.action = GestureAction.KEY_PRESS
  · rw [executeAction_key_press env st cmd x y h9, hsm]
  by_cases h10 : cmd.action = GestureAction.KEY_COMBO
  · rw [executeAction_key_combo env st cmd x y h10, hsm]
  by_cases h11 : cmd.action = GestureAction.TYPE_TEXT
  · rw [executeAction_type_text env st cmd x y h11, hsm]
  by_cases h12 : cmd.action = GestureAction.WAVE
  · rw [executeAction_wave env st cmd x y h12, hsm]
  by_cases h13 : cmd.action = GestureAction.COPY
  · rw [executeAction_copy env st cmd x y h13, hsm]
  by_cases h14 : cmd.action = GestureAction.PASTE
  · rw [executeAction_paste env st cmd x y h14, hsm]
    split_ifs <;> rfl
  by_cases h15 : cmd.action = GestureAction.TRANSLATE
  · rw [executeAction_translate env st cmd x y h15, hsm]
    split_ifs <;> rfl
  by_cases h16 : cmd.action = GestureAction.VOLUME_CONTROL
  · rw [executeAction_volume_control env st cmd x y h16, hsm]
    split_ifs <;> rfl
  rw [executeAction_unknown env st cmd x y h1 h2 h3 h4 h5 h6 h7 h8 h9 h10 h11 h12 h13 h14 h15 h16,
      hsm]

lemma executeAction_mouse_guard (env : Env) (st : ExecState) (cmd : GestureCommand) (x y : ℤ) :
    (st.is_dragging = true →
      ∀ a b c, Event.mouse_down a b c ∉ (execute_action env st cmd x y).2)
  ∧ (st.is_dragging = false →
      ∀ a b c, Event.mouse_up a b c ∉ (execute_action env st cmd x y).2) := by
  by_cases h1 : cmd.action = GestureAction.MOVE_RELATIVE
  · rw [executeAction_move_relative env st cmd x y h1]
    constructor <;> (intro hd a b c; simp)
  by_cases h2 : cmd.action = GestureAction.MOVE
  · rw [executeAction_move env st cmd x y h2]
    constructor <;> (intro hd a b c; simp)
  by_cases h3 : cmd.action = GestureAction.CLICK
  · rw [executeAction_click env st cmd x y h3]
    constructor <;> (intro hd a b c; simp)
  by_cases h4 : cmd.action = GestureAction.DOUBLE_CLICK
  · rw [executeAction_double_click env st cmd x y h4]
    constructor <;> (intro hd a b c; simp)
  by_cases h5 : cmd.action = GestureAction.DRAG_START
  · rw [executeAction_drag_start env st cmd x y h5, smoothSt_is_dragging]
    constructor <;> intro hd a b c <;> rw [hd]
    · rw [if_pos rfl]
      simp
    · rw [if_neg (by decide)]
      simp
  by_cases h6 : cmd.action = GestureAction.DRAG_END
  · rw [executeAction_drag_end env st cmd x y h6, smoothSt_is_dragging]
    constructor <;> intro hd a b c <;> rw [hd]
    · rw [if_pos rfl]
      simp
    · rw [if_neg (by decide)]
      simp
  by_cases h7 : cmd.action = GestureAction.SCROLL
  · rw [executeAction_scroll env st cmd x y h7]
    constructor <;> (intro hd a b c; split_ifs <;> simp)
  by_cases h8 : cmd.action = GestureAction.ZOOM
  · rw [executeAction_zoom env st cmd x y h8]
    constructor <;> (intro hd a b c; simp)
  by_cases h9 : cmd.action = GestureAction.KEY_PRESS
  · rw [executeAction_key_press env st cmd x y h9]
    constructor <;> (intro hd a b c; simp)
  by_cases h10 : cmd.action = GestureAction.KEY_COMBO
  · rw [executeAction_key_combo env st cmd x y h10]
    constructor <;> (intro hd a b c; simp)
  by_cases h11 : cmd.action = GestureAction.TYPE_TEXT
  · rw [executeAction_type_text env st cmd x y h11]
    constructor <;> (intro hd a b c; simp)
  by_cases h12 : cmd.action = GestureAction.WAVE
  · rw [executeAction_wave env st cmd x y h12]
    constructor <;> (intro hd a b c; simp)
  by_cases h13 : cmd.action = GestureAction.COPY
  · rw [executeAction_copy env st cmd x y h13]
    constructor <;> (intro hd a b c; simp)
  by_cases h14 : cmd.action = GestureAction.PASTE
  · rw [executeAction_paste env st cmd x y h14]
    constructor <;> (intro hd a b c; split_ifs <;> simp)
  by_cases h15 : cmd.action = GestureAction.TRANSLATE
  · rw [executeAction_translate env st cmd x y h15]
    constructor <;> (intro hd a b c; split_ifs <;> simp)
  by_cases h16 : cmd.action = GestureAction.VOLUME_CONTROL
  · rw [executeAction_volume_control env st cmd x y h16]
    constructor <;> (intro hd a b c; split_ifs <;> simp)
  rw [executeAction_unknown env st cmd x y h1 h2 h3 h4 h5 h6 h7 h8 h9 h10 h11 h12 h13 h14 h15 h16]
  constructor <;> (intro hd a b c; simp)

lemma executeAction_bounds (env : Env) (st : ExecState) (cmd : GestureCommand) (x y : ℤ)
    (hs0 : 0 ≤ env.config.gesture_smoothing) (hs1 : env.config.gesture_smoothing < 1)
    (hw : 0 ≤ env.screen_width) (hh : 0 ≤ env.screen_height)
    (hx0 : 0 ≤ x) (hxw : x ≤ env.screen_width) (hy0 : 0 ≤ y) (hyh : y ≤ env.screen_height)
    (hlast : lastOK env.screen_width env.screen_height st) :
    lastOK env.screen_width env.screen_height (execute_action env st cmd x y).1 ∧
    ∀ e ∈ (execute_action env st cmd x y).2,
      coordsInBounds env.screen_width env.screen_height e = true := by
  have hsm := smoothXY_bounds hs0 hs1 hx0 hxw hy0 hyh hlast
  have hst := smoothSt_lastOK hs0 hs1 hx0 hxw hy0 hyh hlast
  by_cases h1 : cmd.action = GestureAction.MOVE_RELATIVE
  · rw [executeAction_move_relative env st cmd x y h1]
    refine ⟨hlast, ?_⟩
    intro e he
    fin_cases he
    rfl
  by_cases h2 : cmd.action = GestureAction.MOVE
  · rw [executeAction_move env st cmd x y h2]
    have hmv := moveXY_bounds st cmd hw hh hx0 hxw hy0 hyh
    have hsm2 := smoothXY_bounds hs0 hs1 hmv.1 hmv.2.1 hmv.2.2.1 hmv.2.2.2 hlast
    obtain ⟨a1, a2, a3, a4⟩ := hsm2
    constructor
    · split_ifs with hp
      · exact ⟨a1, a2, a3, a4⟩
      · exact hlast
    · intro e he
      fin_cases he
      simp only [coordsInBounds, xyOK, Bool.and_eq_true, decide_eq_true_eq]
      omega
  by_cases h3 : cmd.action = GestureAction.CLICK
  · rw [executeAction_click env st cmd x y h3]
    obtain ⟨a1, a2, a3, a4⟩ := hsm
    refine ⟨hst, ?_⟩
    intro e he
    fin_cases he
    simp only [coordsInBounds, xyOK, Bool.and_eq_true, decide_eq_true_eq]
    omega
  by_cases h4 : cmd.action = GestureAction.DOUBLE_CLICK
  · rw [executeAction_double_click env st cmd x y h4]
    obtain ⟨a1, a2, a3, a4⟩ := hsm
    refine ⟨hst, ?_⟩
    intro e he
    fin_cases he
    simp only [coordsInBounds, xyOK, Bool.and_eq_true, decide_eq_true_eq]
    omega
  by_cases h5 : cmd.action = GestureAction.DRAG_START
  · rw [executeAction_drag_start env st cmd x y h5]
    obtain ⟨a1, a2, a3, a4⟩ := hsm
    constructor
    · split_ifs <;> exact hst
    · intro e he
      split_ifs at he
      · simp at he
      · fin_cases he
        simp only [coordsInBounds, xyOK, Bool.and_eq_true, decide_eq_true_eq]
        omega
  by_cases h6 : cmd.action = GestureAction.DRAG_END
  · rw [executeAction_drag_end env st cmd x y h6]
    obtain ⟨a1, a2, a3, a4⟩ := hsm
    constructor
    · split_ifs <;> exact hst
    · intro e he
      split_ifs at he
      · fin_cases he
        simp only [coordsInBounds, xyOK, Bool.and_eq_true, decide_eq_true_eq]
        omega
      · simp at he
  by_cases h7 : cmd.action = GestureAction.SCROLL
  · rw [executeAction_scroll env st cmd x y h7]
    obtain ⟨a1, a2, a3, a4⟩ := hsm
    constructor
    · split_ifs <;> exact hst
    · intro e he
      split_ifs at he <;> fin_cases he <;>
        simp only [coordsInBounds, xyOK, Bool.and_eq_true, decide_eq_true_eq] <;> omega
  by_cases h8 : cmd.action = GestureAction.ZOOM
  · rw [executeAction_zoom env st cmd x y h8]
    obtain ⟨a1, a2, a3, a4⟩ := hsm
    refine ⟨hst, ?_⟩
    intro e he
    fin_cases he <;>
      (simp only [coordsInBounds, xyOK, Bool.and_eq_true, decide_eq_true_eq]; try omega)
  by_cases h9 : cmd.action = GestureAction.KEY_PRESS
  · rw [executeAction_key_press env st cmd x y h9]
    refine ⟨hst, ?_⟩
    intro e he
    fin_cases he
    rfl
  by_cases h10 : cmd.action = GestureAction.KEY_COMBO
  · rw [executeAction_key_combo env st cmd x y h10]
    refine ⟨hst, ?_⟩
    intro e he
    fin_cases he
    rfl
  by_cases h11 : cmd.action = GestureAction.TYPE_TEXT
  · rw [executeAction_type_text env st cmd x y h11]
    refine ⟨hst, ?_⟩
    intro e he
    fin_cases he
    rfl
  by_cases h12 : cmd.action = GestureAction.WAVE
  · rw [executeAction_wave env st cmd x y h12]
    refine ⟨hst, ?_⟩
    intro e he
    fin_cases he
    rfl
  by_cases h13 : cmd.action = GestureAction.COPY
  · rw [executeAction_copy env st cmd x y h13]
    refine ⟨hst, ?_⟩
    intro e he
    fin_cases he
    rfl
  by_cases h14 : cmd.action = GestureAction.PASTE
  · rw [executeAction_paste env st cmd x y h14]
    constructor
    · split_ifs <;> exact hst
    · intro e he
      split_ifs at he <;> fin_cases he <;> rfl
  by_cases h15 : cmd.action = GestureAction.TRANSLATE
  · rw [executeAction_translate env st cmd x y h15]
    constructor
    · split_ifs <;> exact hst
    · intro e he
      split_ifs at he <;> fin_cases he <;> rfl
  by_cases h16 : cmd.action = GestureAction.VOLUME_CONTROL
  · rw [executeAction_volume_control env st cmd x y h16]
    constructor
    · split_ifs <;> exact hst
    · intro e he
      split_ifs at he <;> fin_cases he <;> rfl
  rw [executeAction_unknown env st cmd x y h1 h2 h3 h4 h5 h6 h7 h8 h9 h10 h11 h12 h13 h14 h15 h16]
  refine ⟨hst, ?_⟩
  intro e he
  simp at he


lemma moveXY_of_nopred {env : Env} (st : ExecState) (cmd : GestureCommand) (x y : ℤ)
    (hp : env.config.enable_prediction = false) : moveXY env st cmd x y = (st.predictor, x, y) := by
  unfold moveXY
  rw [hp, if_neg (by decide)]

lemma executeCommand_bounds (env : Env) (st : ExecState) (cmd : GestureCommand)
    (hs0 : 0 ≤ env.config.gesture_smoothing) (hs1 : env.config.gesture_smoothing < 1)
    (hw : 0 ≤ env.screen_width) (hh : 0 ≤ env.screen_height)
    (hlast : lastOK env.screen_width env.screen_height st) :
    lastOK env.screen_width env.screen_height (execute_command_internal env st cmd).1 ∧
    ∀ e ∈ (execute_command_internal env st cmd).2,
      coordsInBounds env.screen_width env.screen_height e = true := by
  unfold execute_command_internal
  exact executeAction_bounds env st cmd _ _ hs0 hs1 hw hh
    (clamp_nonneg _ _) (clamp_le _ hw) (clamp_nonneg _ _) (clamp_le _ hh) hlast

lemma worker_bounds (env : Env)
    (hs0 : 0 ≤ env.config.gesture_smoothing) (hs1 : env.config.gesture_smoothing < 1)
    (hw : 0 ≤ env.screen_width) (hh : 0 ≤ env.screen_height) :
    ∀ (cmds : List GestureCommand) (st : ExecState),
      lastOK env.screen_width env.screen_height st →
      lastOK env.screen_width env.screen_height (command_worker env st cmds).1 ∧
      ∀ e ∈ workerTrace env st cmds,
        coordsInBounds env.screen_width env.screen_height e = true := by
  intro cmds
  induction cmds with
  | nil =>
    intro st hlast
    refine ⟨hlast, ?_⟩
    intro e he
    simp [workerTrace, command_worker] at he
  | cons c cs ih =>
    intro st hlast
    have hc := executeCommand_bounds env st c hs0 hs1 hw hh hlast
    have ihr := ih (execute_command_internal env st c).1 hc.1
    constructor
    · simpa [command_worker] using ihr.1
    · intro e he
      simp only [workerTrace, command_worker] at he
      rcases List.mem_append.mp he with h | h
      · exact hc.2 e h
      · exact ihr.2 e h

/-! ### Claims -/

def cfgC2 : ServerConfig :=
  { enable_prediction := true, gesture_smoothing := 1/2, performance_logging := true }

def envC2 : Env :=
  { config := cfgC2, screen_width := 100, screen_height := 100, selection := "sel",
    translation := fun s => s }

def cmdsC2 : List GestureCommand :=
  [{ id := "m1", action := "move", position := (-5, 17/3), timestamp := 1, metadata := Metadata.empty },
   { id := "m2", action := "move", position := (2, -1), timestamp := 11/10, metadata := Metadata.empty },
   { id := "c1", action := "click", position := (3/2, 1/2), timestamp := 12/10, metadata := Metadata.empty },
   { id := "d1", action := "drag_start", position := (1/2, 1/2), timestamp := 13/10, metadata := Metadata.empty }]

/-- C2: starting from the executor's initial state (`last_position = (0,0)`),
for every command list and arbitrary (also out-of-`[0,1]`) normalized
positions, with smoothing factor `s ∈ [0,1)` and non-negative screen size,
every injection call carrying an absolute target stays inside
`[0, screenWidth] × [0, screenHeight]`: the clamped denormalized position,
the smoothing state, and the clamped predictor output all stay in bounds. -/
theorem claim_C2 (env : Env) (clip : String) (cmds : List GestureCommand)
    (hs0 : 0 ≤ env.config.gesture_smoothing) (hs1 : env.config.gesture_smoothing < 1)
    (hw : 0 ≤ env.screen_width) (hh : 0 ≤ env.screen_height) :
    ∀ e ∈ workerTrace env
        (ExecState.init (env.screen_width : ℚ) (env.screen_height : ℚ) clip) cmds,
      coordsInBounds env.screen_width env.screen_height e = true := by
  have h0 : lastOK env.screen_width env.screen_height
      (ExecState.init (env.screen_width : ℚ) (env.screen_height : ℚ) clip) :=
    ⟨le_refl 0, hw, le_refl 0, hh⟩
  exact (worker_bounds env hs0 hs1 hw hh cmds _ h0).2

/-- C2 witness: a concrete 100×100 screen, smoothing `1/2`, prediction on,
and commands whose positions lie far outside `[0,1]`. -/
theorem claim_C2_witness :
    ((0 : ℚ) ≤ envC2.config.gesture_smoothing) ∧ (envC2.config.gesture_smoothing < 1) ∧
    ((0 : ℤ) ≤ envC2.screen_width) ∧ ((0 : ℤ) ≤ envC2.screen_height) ∧
    ∀ e ∈ workerTrace envC2
        (ExecState.init (envC2.screen_width : ℚ) (envC2.screen_height : ℚ) "") cmdsC2,
      coordsInBounds envC2.screen_width envC2.screen_height e = true :=
  ⟨by with_unfolding_all decide, by with_unfolding_all decide,
   by decide, by decide,
   claim_C2 envC2 "" cmdsC2 (by with_unfolding_all decide) (by with_unfolding_all decide)
     (by decide) (by decide)⟩

def cfgC3 : ServerConfig :=
  { enable_prediction := false, gesture_smoothing := 0, performance_logging := false }

def envC3 : Env :=
  { config := cfgC3, screen_width := 1920, screen_height := 1080, selection := "",
    translation := fun s => s }

def stC3 : ExecState := ExecState.init 1920 1080 ""

def cmdC3 : GestureCommand :=
  { id := "x", action := "click", position := (1/1024, 0), timestamp := 0,
    metadata := Metadata.empty }

/-- C3 counterexample: at normalized x `1/1024` on a 1920-wide screen the
code dispatches a click at `x = 1` (truncation of `1.875`), while the
claimed `clamp(round(posX·screenWidth), 0, screenWidth)` equals `2` — the
denormalization does not round to nearest. -/
theorem claim_C3_counterexample :
    workerTrace envC3 stC3 [cmdC3] = [Event.click 1 0 "left"] ∧
    denormRoundSpec (1/1024) 1920 = 2 ∧ ¬ denormRoundSpec (1/1024) 1920 = 1 := by
  refine ⟨?_, ?_, ?_⟩ <;> with_unfolding_all decide

/-- C3 (amended): for every dequeued command, denormalization computes
`absX = clamp(trunc(posX·screenWidth), 0, screenWidth)` — the product is
truncated toward zero (Python `int()`), not rounded to nearest — and the
result lies in the inclusive range `[0, screenDimension]`; with smoothing
disabled a click observably dispatches at exactly these coordinates. -/
theorem claim_C3 (env : Env) (st : ExecState) (cmd : GestureCommand) :
    execute_command_internal env st cmd =
      execute_action env st cmd (denormCode cmd.position.1 env.screen_width)
                                (denormCode cmd.position.2 env.screen_height)
  ∧ (cmd.action = GestureAction.CLICK → env.config.gesture_smoothing ≤ 0 →
      (execute_command_internal env st cmd).2 =
        [Event.click (denormCode cmd.position.1 env.screen_width)
                     (denormCode cmd.position.2 env.screen_height)
                     (cmd.metadata.button.getD "left")])
  ∧ ∀ p : ℚ, ∀ w : ℤ, 0 ≤ w → 0 ≤ denormCode p w ∧ denormCode p w ≤ w := by
  refine ⟨rfl, ?_, ?_⟩
  · intro hact hs
    have hns : ¬ (0 : ℚ) < env.config.gesture_smoothing := not_lt.mpr hs
    unfold execute_command_internal
    rw [executeAction_click env st cmd _ _ hact, smoothXY_of_nosmooth st _ _ hns]
    rfl
  · intro p w hw
    exact ⟨clamp_nonneg _ _, clamp_le _ hw⟩

/-- C3 witness: the amended denormalization evaluated on the concrete
click command of the counterexample. -/
theorem claim_C3_witness :
    cmdC3.action = GestureAction.CLICK ∧ envC3.config.gesture_smoothing ≤ 0 ∧
    (execute_command_internal envC3 stC3 cmdC3).2 =
      [Event.click (denormCode cmdC3.position.1 envC3.screen_width)
                   (denormCode cmdC3.position.2 envC3.screen_height)
                   (cmdC3.metadata.button.getD "left")] ∧
    (0 : ℤ) ≤ 1920 ∧ 0 ≤ denormCode (1/1024) 1920 ∧ denormCode (1/1024) 1920 ≤ 1920 :=
  ⟨rfl, by with_unfolding_all decide,
   (claim_C3 envC3 stC3 cmdC3).2.1 rfl (by with_unfolding_all decide),
   by decide,
   ((claim_C3 envC3 stC3 cmdC3).2.2 (1/1024) 1920 (by decide)).1,
   ((claim_C3 envC3 stC3 cmdC3).2.2 (1/1024) 1920 (by decide)).2⟩

def cfgC4 : ServerConfig :=
  { enable_prediction := false, gesture_smoothing := 0, performance_logging := false }

def envC4 : Env :=
  { config := cfgC4, screen_width := 100, screen_height := 100, selection := "",
    translation := fun s => s }

def stC4 : ExecState := ExecState.init 100 100 ""

def cmdC4 : GestureCommand :=
  { id := "m", action := "move", position := (1/2, 1/2), timestamp := 0,
    metadata := Metadata.empty }

/-- C4 counterexample: with smoothing factor `0`, a move to `(1/2, 1/2)` on
a 100×100 screen dispatches `move_to (50, 50)` (pass-through), but
`last_position` remains `(0, 0)` — it is *not* updated to track the
target, contradicting the claim that `lastEmitted` still tracks it. -/
theorem claim_C4_counterexample :
    workerTrace envC4 stC4 [cmdC4] = [Event.move_to 50 50] ∧
    (command_worker envC4 stC4 [cmdC4]).1.last_position = (0, 0) ∧
    ¬ ((0 : ℤ), (0 : ℤ)) = ((50 : ℤ), (50 : ℤ)) := by
  refine ⟨?_, ?_, ?_⟩ <;> with_unfolding_all decide

/-- C4 (amended): when the smoothing factor `s ≤ 0`, smoothing is disabled
and the target passes through unchanged to dispatch (shown for clicks, and
for moves with prediction off), but the stored `last_position` is *not*
updated — it keeps its previous value, so a later re-enable of smoothing
blends from the stale anchor, not from the most recently dispatched
position. -/
theorem claim_C4 (env : Env) (st : ExecState) (cmd : GestureCommand)
    (hs : env.config.gesture_smoothing ≤ 0) :
    (execute_command_internal env st cmd).1.last_position = st.last_position
  ∧ (cmd.action = GestureAction.CLICK →
      (execute_command_internal env st cmd).2 =
        [Event.click (denormCode cmd.position.1 env.screen_width)
                     (denormCode cmd.position.2 env.screen_height)
                     (cmd.metadata.button.getD "left")])
  ∧ (cmd.action = GestureAction.MOVE → env.config.enable_prediction = false →
      (execute_command_internal env st cmd).2 =
        [Event.move_to (denormCode cmd.position.1 env.screen_width)
                       (denormCode cmd.position.2 env.screen_height)]) := by
  have hns : ¬ (0 : ℚ) < env.config.gesture_smoothing := not_lt.mpr hs
  refine ⟨?_, ?_, ?_⟩
  · unfold execute_command_internal
    exact executeAction_last_position env st cmd _ _ hns
  · intro hact
    unfold execute_command_internal
    rw [executeAction_click env st cmd _ _ hact, smoothXY_of_nosmooth st _ _ hns]
    rfl
  · intro hact hpred
    unfold execute_command_internal
    rw [executeAction_move env st cmd _ _ hact, moveXY_of_nopred st cmd _ _ hpred,
        smoothXY_of_nosmooth st _ _ hns]
    rfl

/-- C4 witness: the amended behaviour evaluated on the concrete move
command of the counterexample. -/
theorem claim_C4_witness :
    envC4.config.gesture_smoothing ≤ 0 ∧
    (execute_command_internal envC4 stC4 cmdC4).1.last_position = stC4.last_position ∧
    (execute_command_internal envC4 stC4 cmdC4).2 =
      [Event.move_to (denormCode cmdC4.position.1 envC4.screen_width)
                     (denormCode cmdC4.position.2 envC4.screen_height)] :=
  ⟨by with_unfolding_all decide,
   (claim_C4 envC4 stC4 cmdC4 (by with_unfolding_all decide)).1,
   (claim_C4 envC4 stC4 cmdC4 (by with_unfolding_all decide)).2.2 rfl rfl⟩

/-- C5: the drag lifecycle is a 2-state machine with idempotent no-ops —
`drag_end` while idle and `drag_start` while dragging issue no injection
call and leave the drag state unchanged; `drag_start` from idle issues
exactly one `mouse_down` and sets dragging; `drag_end` from dragging
issues exactly one `mouse_up` and sets idle; and over all commands a
`mouse_down` is never issued while dragging nor a `mouse_up` while idle. -/
theorem claim_C5 (env : Env) (st : ExecState) (cmd : GestureCommand) :
    (cmd.action = GestureAction.DRAG_END → st.is_dragging = false →
      (execute_command_internal env st cmd).2 = [] ∧
      (execute_command_internal env st cmd).1.is_dragging = false)
  ∧ (cmd.action = GestureAction.DRAG_START → st.is_dragging = true →
      (execute_command_internal env st cmd).2 = [] ∧
      (execute_command_internal env st cmd).1.is_dragging = true)
  ∧ (cmd.action = GestureAction.DRAG_START → st.is_dragging = false →
      (execute_command_internal env st cmd).1.is_dragging = true ∧
      ∃ a b c, (execute_command_internal env st cmd).2 = [Event.mouse_down a b c])
  ∧ (cmd.action = GestureAction.DRAG_END → st.is_dragging = true →
      (execute_command_internal env st cmd).1.is_dragging = false ∧
      ∃ a b c, (execute_command_internal env st cmd).2 = [Event.mouse_up a b c])
  ∧ (st.is_dragging = true →
      ∀ a b c, Event.mouse_down a b c ∉ (execute_command_internal env st cmd).2)
  ∧ (st.is_dragging = false →
      ∀ a b c, Event.mouse_up a b c ∉ (execute_command_internal env st cmd).2) := by
  refine ⟨?_, ?_, ?_, ?_, ?_, ?_⟩
  · intro hact hd
    unfold execute_command_internal
    rw [executeAction_drag_end env st cmd _ _ hact, smoothSt_is_dragging, hd,
        if_neg (by decide)]
    exact ⟨rfl, by rw [smoothSt_is_dragging]; exact hd⟩
  · intro hact hd
    unfold execute_command_internal
    rw [executeAction_drag_start env st cmd _ _ hact, smoothSt_is_dragging, hd, if_pos rfl]
    exact ⟨rfl, by rw [smoothSt_is_dragging]; exact hd⟩
  · intro hact hd
    unfold execute_command_internal
    rw [executeAction_drag_start env st cmd _ _ hact, smoothSt_is_dragging, hd,
        if_neg (by decide)]
    exact ⟨rfl, _, _, _, rfl⟩
  · intro hact hd
    unfold execute_command_internal
    rw [executeAction_drag_end env st cmd _ _ hact, smoothSt_is_dragging, hd, if_pos rfl]
    exact ⟨rfl, _, _, _, rfl⟩
  · intro hd
    unfold execute_command_internal
    exact (executeAction_mouse_guard env st cmd _ _).1 hd
  · intro hd
    unfold execute_command_internal
    exact (executeAction_mouse_guard env st cmd _ _).2 hd

def cfgC5 : ServerConfig :=
  { enable_prediction := false, gesture_smoothing := 0, performance_logging := false }

def envC5 : Env :=
  { config := cfgC5, screen_width := 100, screen_height := 100, selection := "",
    translation := fun s => s }

def stC5 : ExecState := ExecState.init 100 100 ""

def cmdC5 : GestureCommand :=
  { id := "d", action := "drag_start", position := (1/2, 1/2), timestamp := 0,
    metadata := Metadata.empty }

/-- C5 witness: a concrete `drag_start` from the idle initial state sets
dragging and issues exactly one `mouse_down`. -/
theorem claim_C5_witness :
    cmdC5.action = GestureAction.DRAG_START ∧ stC5.is_dragging = false ∧
    ((execute_command_internal envC5 stC5 cmdC5).1.is_dragging = true ∧
     ∃ a b c, (execute_command_internal envC5 stC5 cmdC5).2 = [Event.mouse_down a b c]) :=
  ⟨rfl, rfl, (claim_C5 envC5 stC5 cmdC5).2.2.1 rfl rfl⟩

lemma lastTwo_length {α : Type} {xs : List α} {a b : α} (h : lastTwo xs = some (a, b)) :
    2 ≤ xs.length := by
  unfold lastTwo at h
  rw [← List.length_reverse]
  rcases hrev : xs.reverse with _ | ⟨c, _ | ⟨d, rest⟩⟩ <;> rw [hrev] at h
  · cases h
  · cases h
  · simp

/-- C6: for every call to `predict_next_position`, if after appending the
new sample the history holds fewer than 2 samples, or the time delta
between the two newest samples is non-positive, the returned prediction is
the input position unchanged and no velocity is appended (the function is
total, so no exception can arise). -/
theorem claim_C6 (p : TrajectoryPredictor) (cur : ℚ × ℚ) (t : ℚ)
    (h : (dequeAppend p.sequence_length p.position_buffer ⟨cur.1, cur.2, t⟩).length < 2 ∨
         ∃ prev curr,
           lastTwo (dequeAppend p.sequence_length p.position_buffer ⟨cur.1, cur.2, t⟩) =
             some (prev, curr) ∧ curr.t - prev.t ≤ 0) :
    (p.predict_next_position cur t).2 = cur ∧
    (p.predict_next_position cur t).1.velocity_buffer = p.velocity_buffer := by
  unfold TrajectoryPredictor.predict_next_position
  rcases h with h | ⟨prev, curr, hlt, hdt⟩
  · rw [if_pos h]
    exact ⟨rfl, rfl⟩
  · rw [if_neg (not_lt.mpr (lastTwo_length hlt)), hlt]
    dsimp only
    rw [if_pos hdt]
    exact ⟨rfl, rfl⟩

def pC6 : TrajectoryPredictor := TrajectoryPredictor.initDefault 1920 1080

/-- C6 witness: the very first sample yields the input position unchanged
and an untouched velocity buffer. -/
theorem claim_C6_witness :
    ((dequeAppend pC6.sequence_length pC6.position_buffer ⟨3, 4, 1⟩).length < 2 ∨
     ∃ prev curr,
       lastTwo (dequeAppend pC6.sequence_length pC6.position_buffer ⟨3, 4, 1⟩) =
         some (prev, curr) ∧ curr.t - prev.t ≤ 0) ∧
    (pC6.predict_next_position (3, 4) 1).2 = (3, 4) ∧
    (pC6.predict_next_position (3, 4) 1).1.velocity_buffer = pC6.velocity_buffer :=
  ⟨Or.inl (by with_unfolding_all decide),
   claim_C6 pC6 (3, 4) 1 (Or.inl (by with_unfolding_all decide))⟩

lemma range_weights_sum (n : ℕ) :
    ((List.range n).map (fun i : ℕ => (i : ℚ) + 1)).sum = (n : ℚ) * ((n : ℚ) + 1) / 2 := by
  induction n with
  | zero => simp
  | succ k ih =>
    rw [List.range_succ, List.map_append, List.sum_append, ih]
    simp only [List.map_cons, List.map_nil, List.sum_cons, List.sum_nil]
    push_cast
    ring

lemma list_sum_div (l : List ℚ) (c : ℚ) : (l.map (fun q => q / c)).sum = l.sum / c := by
  induction l with
  | nil => simp
  | cons a t ih =>
    simp only [List.map_cons, List.sum_cons, ih]
    rw [div_add_div_same]

lemma weightsOf_eq (n : ℕ) :
    weightsOf n = (List.range n).map
      (fun i : ℕ => ((i : ℚ) + 1) / ((n : ℚ) * ((n : ℚ) + 1) / 2)) := by
  simp only [weightsOf]
  rw [range_weights_sum, List.map_map]
  rfl

lemma weightedSum_comm (vs ws : List ℚ) (h : ws.length = vs.length) :
    weightedSum vs ws = ((ws.zip vs).map (fun p => p.1 * p.2)).sum := by
  induction vs generalizing ws with
  | nil =>
    cases ws with
    | nil => simp [weightedSum]
    | cons w wt => simp at h
  | cons v vt ih =>
    cases ws with
    | nil => simp at h
    | cons w wt =>
      simp only [weightedSum, List.zip_cons_cons, List.map_cons, List.sum_cons]
      have hih := ih wt (by simpa using h)
      simp only [weightedSum] at hih
      rw [hih]
      ring

lemma weightsOf_mean (vs : List ℚ) (n : ℕ) (hn : n = vs.length) :
    weightedSum vs (weightsOf n) = weightedMeanSpec vs := by
  subst hn
  have hlen : (weightsOf vs.length).length = vs.length := by
    rw [weightsOf_eq]
    simp
  rw [weightedSum_comm vs (weightsOf vs.length) hlen, weightsOf_eq, List.zip_map_left,
      List.map_map]
  have hcongr : ∀ p ∈ (List.range vs.length).zip vs,
      ((fun p : ℚ × ℚ => p.1 * p.2) ∘
        Prod.map (fun i : ℕ => ((i : ℚ) + 1) / ((vs.length : ℚ) * ((vs.length : ℚ) + 1) / 2)) id) p =
      ((fun q : ℚ => q / ((vs.length : ℚ) * ((vs.length : ℚ) + 1) / 2)) ∘
        (fun p : ℕ × ℚ => ((p.1 : ℚ) + 1) * p.2)) p := by
    intro p hp
    simp only [Function.comp, Prod.map_fst, Prod.map_snd, id]
    rw [div_mul_eq_mul_div]
  rw [List.map_congr_left hcongr, ← List.map_map, list_sum_div]
  rfl

lemma predict_buffers (p : TrajectoryPredictor) (cur : ℚ × ℚ) (t : ℚ) :
    (p.predict_next_position cur t).1.position_buffer =
      dequeAppend p.sequence_length p.position_buffer ⟨cur.1, cur.2, t⟩ ∧
    ((p.predict_next_position cur t).1.velocity_buffer = p.velocity_buffer ∨
     ∃ v, (p.predict_next_position cur t).1.velocity_buffer =
       dequeAppend (p.sequence_length - 1) p.velocity_buffer v) := by
  simp only [TrajectoryPredictor.predict_next_position]
  split_ifs with h2
  · exact ⟨rfl, Or.inl rfl⟩
  · rcases hlt : lastTwo (dequeAppend p.sequence_length p.position_buffer ⟨cur.1, cur.2, t⟩)
      with _ | ⟨prev, curr⟩
    · exact ⟨rfl, Or.inl rfl⟩
    · dsimp only
      split_ifs <;>
        first
          | exact ⟨rfl, Or.inl rfl⟩
          | exact ⟨rfl, Or.inr ⟨_, rfl⟩⟩

/-- C7: the position buffer never exceeds `sequenceLength` samples and the
velocity buffer never exceeds `sequenceLength − 1` (oldest evicted on
overflow; the default constructor uses `sequenceLength = 5` and empty
buffers), and when a positive time delta exists the instantaneous velocity
is appended and the prediction is the current position plus the
recency-weighted mean velocity (weights `1..n` normalized) times the 20 ms
horizon, clamped to `[0, screenWidth] × [0, screenHeight]`. -/
theorem claim_C7 (p : TrajectoryPredictor) (cur : ℚ × ℚ) (t : ℚ)
    (hp : p.position_buffer.length ≤ p.sequence_length)
    (hv : p.velocity_buffer.length ≤ p.sequence_length - 1) :
    ((p.predict_next_position cur t).1.position_buffer.length ≤ p.sequence_length ∧
     (p.predict_next_position cur t).1.velocity_buffer.length ≤ p.sequence_length - 1)
  ∧ (p.position_buffer.length = p.sequence_length → 0 < p.sequence_length →
      (p.predict_next_position cur t).1.position_buffer =
        p.position_buffer.tail ++ [⟨cur.1, cur.2, t⟩])
  ∧ (∀ w h : ℚ, (TrajectoryPredictor.initDefault w h).sequence_length = 5 ∧
      (TrajectoryPredictor.initDefault w h).position_buffer = [] ∧
      (TrajectoryPredictor.initDefault w h).velocity_buffer = [])
  ∧ (∀ prev curr,
      lastTwo (dequeAppend p.sequence_length p.position_buffer ⟨cur.1, cur.2, t⟩) =
        some (prev, curr) →
      0 < curr.t - prev.t →
      (p.predict_next_position cur t).1.velocity_buffer =
        dequeAppend (p.sequence_length - 1) p.velocity_buffer
          ⟨(curr.x - prev.x) / (curr.t - prev.t), (curr.y - prev.y) / (curr.t - prev.t)⟩ ∧
      (p.predict_next_position cur t).2 =
        (max 0 (min p.screen_width (cur.1 +
           weightedMeanSpec ((dequeAppend (p.sequence_length - 1) p.velocity_buffer
             ⟨(curr.x - prev.x) / (curr.t - prev.t),
              (curr.y - prev.y) / (curr.t - prev.t)⟩).map Velocity.vx) * (1 / 50))),
         max 0 (min p.screen_height (cur.2 +
           weightedMeanSpec ((dequeAppend (p.sequence_length - 1) p.velocity_buffer
             ⟨(curr.x - prev.x) / (curr.t - prev.t),
              (curr.y - prev.y) / (curr.t - prev.t)⟩).map Velocity.vy) * (1 / 50))))) := by
  refine ⟨⟨?_, ?_⟩, ?_, ?_, ?_⟩
  · rw [(predict_buffers p cur t).1, dequeAppend_length]
    omega
  · rcases (predict_buffers p cur t).2 with h | ⟨v, h⟩ <;> rw [h]
    · exact hv
    · rw [dequeAppend_length]
      omega
  · intro hfull hpos
    rw [(predict_buffers p cur t).1]
    exact dequeAppend_full _ hfull hpos
  · intro w h
    exact ⟨rfl, rfl, rfl⟩
  · intro prev curr hlt hdt
    have hpb2 : 2 ≤ (dequeAppend p.sequence_length p.position_buffer ⟨cur.1, cur.2, t⟩).length :=
      lastTwo_length hlt
    have hlen := dequeAppend_length p.sequence_length p.position_buffer ⟨cur.1, cur.2, t⟩
    have hseq : 2 ≤ p.sequence_length := by omega
    have hvb : 1 ≤ (dequeAppend (p.sequence_length - 1) p.velocity_buffer
        ⟨(curr.x - prev.x) / (curr.t - prev.t),
         (curr.y - prev.y) / (curr.t - prev.t)⟩).length := by
      rw [dequeAppend_length]
      omega
    unfold TrajectoryPredictor.predict_next_position
    rw [if_neg (not_lt.mpr hpb2), hlt]
    dsimp only
    rw [if_neg (not_le.mpr hdt), if_pos hvb, if_pos hvb]
    refine ⟨rfl, ?_⟩
    rw [weightsOf_mean _ _ (List.length_map _ _).symm, weightsOf_mean _ _ (List.length_map _ _).symm]

def pC7 : TrajectoryPredictor :=
  { TrajectoryPredictor.initDefault 1920 1080 with
    position_buffer := [⟨100, 100, 10⟩, ⟨110, 120, 101/10⟩],
    velocity_buffer := [⟨100, 200⟩] }

/-- C7 witness: a predictor holding two samples and one velocity stays
within its buffer bounds after a further call. -/
theorem claim_C7_witness :
    pC7.position_buffer.length ≤ pC7.sequence_length ∧
    pC7.velocity_buffer.length ≤ pC7.sequence_length - 1 ∧
    ((pC7.predict_next_position (120, 130) (102/10)).1.position_buffer.length ≤
       pC7.sequence_length ∧
     (pC7.predict_next_position (120, 130) (102/10)).1.velocity_buffer.length ≤
       pC7.sequence_length - 1) :=
  ⟨by decide, by decide,
   (claim_C7 pC7 (120, 130) (102/10) (by decide) (by decide)).1⟩

/-- C8: submission is non-blocking (a total function of the queue); when
the queue already holds its capacity of 100 commands the incoming command
is dropped with a warning and the queue contents are unchanged; below
capacity the command is appended at the tail with no warning; and the
number of resident commands never exceeds the capacity. -/
theorem claim_C8 (q : CommandQueue) (cmd : GestureCommand) :
    (q.items.length = queueCapacity →
      (submit_command q cmd).queue = q ∧ (submit_command q cmd).warned = true)
  ∧ (q.items.length ≤ queueCapacity →
      (submit_command q cmd).queue.items.length ≤ queueCapacity)
  ∧ (q.items.length < queueCapacity →
      (submit_command q cmd).queue.items = q.items ++ [cmd] ∧
      (submit_command q cmd).warned = false) := by
  refine ⟨?_, ?_, ?_⟩
  · intro h
    unfold submit_command
    rw [if_pos (le_of_eq h.symm)]
    exact ⟨rfl, rfl⟩
  · intro h
    unfold submit_command
    split_ifs with hfull
    · exact h
    · simp only [List.length_append, List.length_singleton]
      omega
  · intro h
    unfold submit_command
    rw [if_neg (by omega)]
    exact ⟨rfl, rfl⟩

def cmdC8 : GestureCommand :=
  { id := "q", action := "move", position := (0, 0), timestamp := 0,
    metadata := Metadata.empty }

def qC8 : CommandQueue := { items := List.replicate 100 cmdC8 }

/-- C8 witness: a queue at its capacity of 100 drops the incoming command
and warns; an empty queue accepts it at the tail without warning. -/
theorem claim_C8_witness :
    qC8.items.length = queueCapacity ∧
    ((submit_command qC8 cmdC8).queue = qC8 ∧ (submit_command qC8 cmdC8).warned = true) ∧
    (CommandQueue.mk []).items.length < queueCapacity ∧
    ((submit_command (CommandQueue.mk []) cmdC8).queue.items = [] ++ [cmdC8] ∧
     (submit_command (CommandQueue.mk []) cmdC8).warned = false) :=
  ⟨by decide, (claim_C8 qC8 cmdC8).1 (by decide), by decide,
   (claim_C8 (CommandQueue.mk []) cmdC8).2.2 (by decide)⟩

/-- C9: unparsable JSON on the reply-capable transport yields exactly the
reply `{"error": "Invalid JSON format"}`; a `gesture_command` payload that
fails command construction yields exactly
`{"error": "Invalid command format", "id": <echoed id or null>}`; on
transports without a reply channel the same bad payloads are silently
dropped; in all these cases no command is enqueued; and payloads whose
type is not `gesture_command` are ignored. -/
theorem claim_C9 (now : ℚ) :
    ((process_message none true now).reply =
        some (Json.obj [("error", Json.str "Invalid JSON format")]) ∧
     (process_message none true now).submitted = none)
  ∧ ((process_message none false now).reply = none ∧
     (process_message none false now).submitted = none)
  ∧ (∀ fields, typeIsGestureCommand (dictGet fields "type") = true →
      Models.GestureCommand.from_json (Json.obj fields) now = none →
      ((process_message (some (Json.obj fields)) true now).reply =
         some (Json.obj [("error", Json.str "Invalid command format"),
                         ("id", (dictGet fields "id").getD Json.null)]) ∧
       (process_message (some (Json.obj fields)) true now).submitted = none) ∧
      ((process_message (some (Json.obj fields)) false now).reply = none ∧
       (process_message (some (Json.obj fields)) false now).submitted = none))
  ∧ (∀ fields b, typeIsGestureCommand (dictGet fields "type") = false →
      (process_message (some (Json.obj fields)) b now).reply = none ∧
      (process_message (some (Json.obj fields)) b now).submitted = none) := by
  refine ⟨⟨rfl, rfl⟩, ⟨rfl, rfl⟩, ?_, ?_⟩
  · intro fields htype hnone
    simp only [process_message, htype, if_true, hnone, Bool.false_eq_true, if_false]
    exact ⟨⟨trivial, trivial⟩, trivial, trivial⟩
  · intro fields b htype
    simp only [process_message, htype, Bool.false_eq_true, if_false]
    exact ⟨trivial, trivial⟩

def fieldsC9 : List (String × Json) :=
  [("type", Json.str "gesture_command"), ("id", Json.str "abc")]

def fieldsC9b : List (String × Json) := [("type", Json.str "heartbeat")]

/-- C9 witness: a `gesture_command` message with no `payload` draws the
invalid-command reply with the echoed id on the reply-capable transport
and is silently dropped elsewhere; a `heartbeat` message is ignored. -/
theorem claim_C9_witness :
    typeIsGestureCommand (dictGet fieldsC9 "type") = true ∧
    Models.GestureCommand.from_json (Json.obj fieldsC9) 0 = none ∧
    ((process_message (some (Json.obj fieldsC9)) true 0).reply =
       some (Json.obj [("error", Json.str "Invalid command format"),
                       ("id", (dictGet fieldsC9 "id").getD Json.null)]) ∧
     (process_message (some (Json.obj fieldsC9)) true 0).submitted = none) ∧
    ((process_message (some (Json.obj fieldsC9)) false 0).reply = none ∧
     (process_message (some (Json.obj fieldsC9)) false 0).submitted = none) ∧
    typeIsGestureCommand (dictGet fieldsC9b "type") = false ∧
    ((process_message (some (Json.obj fieldsC9b)) true 0).reply = none ∧
     (process_message (some (Json.obj fieldsC9b)) true 0).submitted = none) :=
  ⟨rfl, rfl, ((claim_C9 0).2.2.1 fieldsC9 rfl rfl).1, ((claim_C9 0).2.2.1 fieldsC9 rfl rfl).2,
   rfl, (claim_C9 0).2.2.2 fieldsC9b true rfl⟩

/-- C10: for any JSON object with `id` and `payload.action` present,
`from_json` succeeds even when `position`, `timestamp` or `metadata` are
absent, defaulting `position` to `[0, 0]` (and a position of `0`
denormalizes to the screen origin coordinate `0`), `timestamp` to the
server's current wall-clock time, and `metadata` to the empty map; it
returns `None` exactly when `id` or `payload` or `payload.action` is
missing or the payload is not a map. -/
theorem claim_C10 (fields : List (String × Json)) (now : ℚ) :
    (∀ pf i a, dictGet fields "payload" = some (Json.obj pf) →
      dictGet fields "id" = some i → dictGet pf "action" = some a →
      Models.GestureCommand.from_json (Json.obj fields) now =
        some { id := i, action := a,
               position := (dictGet pf "position").getD (Json.arr [Json.num 0, Json.num 0]),
               timestamp := (dictGet fields "timestamp").getD (Json.num now),
               metadata := (dictGet pf "metadata").getD (Json.obj []) })
  ∧ (Models.GestureCommand.from_json (Json.obj fields) now = none ↔
      dictGet fields "payload" = none ∨ dictGet fields "id" = none ∨
      (∃ p, dictGet fields "payload" = some p ∧
        ((∀ pf, p ≠ Json.obj pf) ∨ ∃ pf, p = Json.obj pf ∧ dictGet pf "action" = none)))
  ∧ (∀ w : ℤ, denormCode 0 w = 0) := by
  refine ⟨?_, ?_, ?_⟩
  · intro pf i a hp hi ha
    simp only [Models.GestureCommand.from_json, hp, hi, ha]
  · constructor
    · intro hnone
      rcases hp : dictGet fields "payload" with _ | p
      · exact Or.inl rfl
      · rcases hi : dictGet fields "id" with _ | i
        · exact Or.inr (Or.inl rfl)
        · refine Or.inr (Or.inr ⟨p, rfl, ?_⟩)
          cases p with
          | obj pf =>
            rcases ha : dictGet pf "action" with _ | a
            · exact Or.inr ⟨pf, rfl, ha⟩
            · simp only [Models.GestureCommand.from_json, hp, hi, ha] at hnone
              exact Option.noConfusion hnone
          | null => exact Or.inl (fun pf => by intro hcon; cases hcon)
          | bool b => exact Or.inl (fun pf => by intro hcon; cases hcon)
          | num q => exact Or.inl (fun pf => by intro hcon; cases hcon)
          | str s => exact Or.inl (fun pf => by intro hcon; cases hcon)
          | arr xs => exact Or.inl (fun pf => by intro hcon; cases hcon)
    · intro h
      rcases h with hp | hi | ⟨p, hp, hrest⟩
      · simp only [Models.GestureCommand.from_json, hp]
      · rcases hp : dictGet fields "payload" with _ | p
        · simp only [Models.GestureCommand.from_json, hp]
        · simp only [Models.GestureCommand.from_json, hp, hi]
      · rcases hrest with hnotobj | ⟨pf, hpf, ha⟩
        · rcases hi : dictGet fields "id" with _ | i
          · simp only [Models.GestureCommand.from_json, hp, hi]
          · cases p with
            | obj pf => exact absurd rfl (hnotobj pf)
            | null => simp only [Models.GestureCommand.from_json, hp, hi]
            | bool b => simp only [Models.GestureCommand.from_json, hp, hi]
            | num q => simp only [Models.GestureCommand.from_json, hp, hi]
            | str s => simp only [Models.GestureCommand.from_json, hp, hi]
            | arr xs => simp only [Models.GestureCommand.from_json, hp, hi]
        · subst hpf
          rcases hi : dictGet fields "id" with _ | i
          · simp only [Models.GestureCommand.from_json, hp, hi]
          · simp only [Models.GestureCommand.from_json, hp, hi, ha]
  · intro w
    have h0 : pyInt 0 = 0 := by with_unfolding_all rfl
    unfold denormCode
    rw [zero_mul, h0]
    omega

def fieldsC10 : List (String × Json) :=
  [("id", Json.str "c1"), ("payload", Json.obj [("action", Json.str "click")])]

/-- C10 witness: a minimal object with only `id` and `payload.action`
decodes with the documented defaults. -/
theorem claim_C10_witness :
    dictGet fieldsC10 "payload" = some (Json.obj [("action", Json.str "click")]) ∧
    dictGet fieldsC10 "id" = some (Json.str "c1") ∧
    dictGet [("action", Json.str "click")] "action" = some (Json.str "click") ∧
    Models.GestureCommand.from_json (Json.obj fieldsC10) 7 =
      some { id := Json.str "c1", action := Json.str "click",
             position :=
               (dictGet [("action", Json.str "click")] "position").getD
                 (Json.arr [Json.num 0, Json.num 0]),
             timestamp := (dictGet fieldsC10 "timestamp").getD (Json.num 7),
             metadata := (dictGet [("action", Json.str "click")] "metadata").getD (Json.obj []) } ∧
    denormCode 0 1920 = 0 :=
  ⟨rfl, rfl, rfl,
   (claim_C10 fieldsC10 7).1 [("action", Json.str "click")] (Json.str "c1")
     (Json.str "click") rfl rfl rfl,
   (claim_C10 fieldsC10 7).2.2 1920⟩

lemma pairwise_trivial {α : Type} {R : α → α → Prop} (h : ∀ a b, R a b) :
    ∀ l : List α, l.Pairwise R
  | [] => List.Pairwise.nil
  | a :: t => List.Pairwise.cons (fun b _ => h a b) (pairwise_trivial h t)

lemma taggedTrace_map_snd (env : Env) :
    ∀ (cmds : List GestureCommand) (st : ExecState),
      (taggedTrace env st cmds).map Prod.snd = workerTrace env st cmds := by
  intro cmds
  induction cmds with
  | nil => intro st; rfl
  | cons c cs ih =>
    intro st
    simp only [taggedTrace, workerTrace, command_worker, List.map_append, List.map_map]
    congr 1
    · simp
    · exact ih _

lemma taggedTrace_monotone (env : Env) :
    ∀ (cmds : List GestureCommand) (st : ExecState),
      List.Pairwise (fun a b : ℕ × Event => a.1 ≤ b.1) (taggedTrace env st cmds) := by
  intro cmds
  induction cmds with
  | nil => intro st; exact List.Pairwise.nil
  | cons c cs ih =>
    intro st
    simp only [taggedTrace]
    rw [List.pairwise_append]
    refine ⟨?_, ?_, ?_⟩
    · exact pairwise_trivial (fun a b => by simp) _ |>.map _ (fun a b h => h)
    · exact (ih _).map _ (fun a b h => by simpa using Nat.add_le_add_right h 1)
    · intro a ha b hb
      rcases List.mem_map.mp ha with ⟨e, _, rfl⟩
      simp

lemma taggedTrace_filter (env : Env) :
    ∀ (cmds : List GestureCommand) (st : ExecState) (i : ℕ) (h : i < cmds.length),
      ((taggedTrace env st cmds).filter (fun p => p.1 == i)).map Prod.snd =
        (execute_command_internal env (command_worker env st (cmds.take i)).1
          (cmds.get ⟨i, h⟩)).2 := by
  intro cmds
  induction cmds with
  | nil =>
    intro st i h
    exact absurd h (by simp)
  | cons c cs ih =>
    intro st i h
    cases i with
    | zero =>
      simp only [taggedTrace, List.filter_append, List.map_append, List.filter_map]
      have h1 : List.filter ((fun p : ℕ × Event => p.1 == 0) ∘ fun e => ((0 : ℕ), e))
          (execute_command_internal env st c).2 = (execute_command_internal env st c).2 := by
        have hq : List.filter ((fun p : ℕ × Event => p.1 == 0) ∘ fun e => ((0 : ℕ), e))
            (execute_command_internal env st c).2 =
            List.filter (fun _ => true) (execute_command_internal env st c).2 :=
          List.filter_congr (by intro x hx; simp)
        rw [hq, List.filter_true]
      have h2 : List.filter ((fun p : ℕ × Event => p.1 == 0) ∘ fun p : ℕ × Event => (p.1 + 1, p.2))
          (taggedTrace env (execute_command_internal env st c).1 cs) = [] := by
        rw [List.filter_eq_nil_iff]
        intro a _
        simp
      rw [h1, h2]
      simp [command_worker]
    | succ j =>
      have hj : j < cs.length := by simpa using h
      simp only [taggedTrace, List.filter_append, List.map_append, List.filter_map]
      have h1 : List.filter ((fun p : ℕ × Event => p.1 == j + 1) ∘ fun e => ((0 : ℕ), e))
          (execute_command_internal env st c).2 = [] := by
        rw [List.filter_eq_nil_iff]
        intro a _
        simp
      have h2 : List.filter ((fun p : ℕ × Event => p.1 == j + 1) ∘ fun p : ℕ × Event => (p.1 + 1, p.2))
            (taggedTrace env (execute_command_internal env st c).1 cs) =
          List.filter (fun p : ℕ × Event => p.1 == j)
            (taggedTrace env (execute_command_internal env st c).1 cs) := by
        apply List.filter_congr
        intro p _
        simp
      rw [h1, h2]
      have hrec := ih (execute_command_internal env st c).1 j hj
      simp only [List.map_map] at hrec ⊢
      simpa [command_worker] using hrec

/-- C1: the single worker drains the queue strictly in FIFO order with at
most one injection call sequence in flight: the dispatch log is the
concatenation of per-command blocks — erasing tags gives the worker trace,
the command indices along the log are monotone (no interleaving of two
commands' injection calls), and the calls logged for index `i` are exactly
the calls of the `i`-th command executed to completion in the state left
by commands `0..i-1`. -/
theorem claim_C1 (env : Env) (st : ExecState) (cmds : List GestureCommand) :
    (taggedTrace env st cmds).map Prod.snd = workerTrace env st cmds
  ∧ List.Pairwise (fun a b : ℕ × Event => a.1 ≤ b.1) (taggedTrace env st cmds)
  ∧ ∀ i : ℕ, ∀ h : i < cmds.length,
      ((taggedTrace env st cmds).filter (fun p => p.1 == i)).map Prod.snd =
        (execute_command_internal env (command_worker env st (cmds.take i)).1
          (cmds.get ⟨i, h⟩)).2 :=
  ⟨taggedTrace_map_snd env cmds st, taggedTrace_monotone env cmds st,
   fun i h => taggedTrace_filter env cmds st i h⟩

def cfgC1 : ServerConfig :=
  { enable_prediction := false, gesture_smoothing := 1/2, performance_logging := true }

def envC1 : Env :=
  { config := cfgC1, screen_width := 100, screen_height := 100, selection := "",
    translation := fun s => s }

def stC1 : ExecState := ExecState.init 100 100 ""

def cmdsC1 : List GestureCommand :=
  [{ id := "a", action := "click", position := (1/2, 1/2), timestamp := 0,
     metadata := Metadata.empty },
   { id := "b", action := "scroll", position := (1/4, 3/4), timestamp := 1,
     metadata := Metadata.empty }]

/-- C1 witness: on a concrete two-command queue, the block of dispatch-log
entries tagged `0` and the block tagged `1` are exactly the first and
second command's injection calls in their sequential states. -/
theorem claim_C1_witness :
    (0 : ℕ) < cmdsC1.length ∧ (1 : ℕ) < cmdsC1.length ∧
    ((taggedTrace envC1 stC1 cmdsC1).filter (fun p => p.1 == 0)).map Prod.snd =
      (execute_command_internal envC1 (command_worker envC1 stC1 (cmdsC1.take 0)).1
        (cmdsC1.get ⟨0, by decide⟩)).2 ∧
    ((taggedTrace envC1 stC1 cmdsC1).filter (fun p => p.1 == 1)).map Prod.snd =
      (execute_command_internal envC1 (command_worker envC1 stC1 (cmdsC1.take 1)).1
        (cmdsC1.get ⟨1, by decide⟩)).2 :=
  ⟨by decide, by decide,
   (claim_C1 envC1 stC1 cmdsC1).2.2 0 (by decide),
   (claim_C1 envC1 stC1 cmdsC1).2.2 1 (by decide)⟩
